import Mathlib

/-!
Shallow embedding of the bounty escrow contract
(`src/contracts/bounty_escrow/contracts/escrow/src/lib.rs`).

Addresses are modelled as natural numbers, `i128` amounts as `Int` with
the checked operations of the source made explicit, `u64` timestamps as
`Nat`.  Soroban storage is modelled as explicit fields of `ContractState`;
token transfers are recorded in an output list.  External collaborators
(the anti-abuse rate limiter and `require_auth`, which can only abort the
whole invocation before any state change) are not modelled.
-/

set_option maxRecDepth 8192

namespace BountyEscrow

/-- `EscrowStatus` from the source. -/
inductive EscrowStatus where
  | Locked
  | Released
  | Refunded
  | PartiallyRefunded
deriving DecidableEq, Repr

/-- `RefundMode` from the source. -/
inductive RefundMode where
  | Full
  | Partial
  | Custom
deriving DecidableEq, Repr

/-- `RefundRecord` from the source (recipient address as `Nat`). -/
structure RefundRecord where
  amount : Int
  recipient : Nat
  mode : RefundMode
  timestamp : Nat
deriving DecidableEq, Repr

/-- `RefundApproval` from the source. -/
structure RefundApproval where
  bounty_id : Nat
  amount : Int
  recipient : Nat
  mode : RefundMode
  approved_by : Nat
  approved_at : Nat
deriving DecidableEq, Repr

/-- `Escrow` from the source. -/
structure Escrow where
  depositor : Nat
  amount : Int
  status : EscrowStatus
  deadline : Nat
  refund_history : List RefundRecord
  remaining_amount : Int
deriving DecidableEq, Repr

/-- `FeeConfig` from the source. -/
structure FeeConfig where
  lock_fee_rate : Int
  release_fee_rate : Int
  fee_recipient : Nat
  fee_enabled : Bool
deriving DecidableEq, Repr

/-- `Error` from the source. -/
inductive Error where
  | AlreadyInitialized
  | NotInitialized
  | BountyExists
  | BountyNotFound
  | FundsNotLocked
  | DeadlineNotPassed
  | Unauthorized
  | InvalidFeeRate
  | FeeRecipientNotSet
  | InvalidBatchSize
  | ContractPaused
  | DuplicateBountyId
  | InvalidAmount
  | InvalidDeadline
  | InsufficientFunds
  | RefundNotApproved
  | BatchSizeMismatch
deriving DecidableEq, Repr

/-- `LockFundsItem` from the source. -/
structure LockFundsItem where
  bounty_id : Nat
  depositor : Nat
  amount : Int
  deadline : Nat
deriving DecidableEq, Repr

/-- `ReleaseFundsItem` from the source. -/
structure ReleaseFundsItem where
  bounty_id : Nat
  contributor : Nat
deriving DecidableEq, Repr

/-- A token transfer `client.transfer(&sender, &receiver, &amount)`. -/
structure Transfer where
  sender : Nat
  receiver : Nat
  amount : Int
deriving DecidableEq, Repr

/-- Result of a contract invocation: `Ok`, a typed `Err`, or a Rust
panic (the reentrancy abort). -/
inductive CallResult (α : Type) where
  | ok : α → CallResult α
  | err : Error → CallResult α
  | panicked : CallResult α
deriving DecidableEq, Repr

/-- Contract storage plus the contract's token balance.
`initialized` models `env.storage().instance().has(&DataKey::Admin)`;
`admin` is the stored admin address (meaningful once initialized);
`escrows` models the `DataKey::Escrow(bounty_id)` keyspace, `approvals`
the `DataKey::RefundApproval(bounty_id)` keyspace; `fee_config` the
`DataKey::FeeConfig` slot; `is_paused` the `DataKey::IsPaused` flag
(absent defaults to false, folded into the `Bool`); `reentrancy_guard`
the `DataKey::ReentrancyGuard` flag; `balance` the token balance of the
contract address. -/
structure ContractState where
  initialized : Bool
  admin : Nat
  escrows : Nat → Option Escrow
  approvals : Nat → Option RefundApproval
  fee_config : Option FeeConfig
  is_paused : Bool
  reentrancy_guard : Bool
  balance : Int

/-- The contract's own address (`env.current_contract_address()`). -/
def contractAddr : Nat := 0

/-- Point update of a storage map (`env.storage().persistent().set`). -/
def setMap {α : Type} (f : Nat → Option α) (k : Nat) (v : α) : Nat → Option α :=
  fun k' => if k' = k then some v else f k'

/-- Point removal from a storage map (`env.storage().persistent().remove`). -/
def removeMap {α : Type} (f : Nat → Option α) (k : Nat) : Nat → Option α :=
  fun k' => if k' = k then none else f k'

/-- `BASIS_POINTS` from the source. -/
def BASIS_POINTS : Int := 10000

/-- `MAX_FEE_RATE` from the source. -/
def MAX_FEE_RATE : Int := 1000

/-- `MAX_BATCH_SIZE` from the source. -/
def MAX_BATCH_SIZE : Nat := 100

/-- Smallest `i128` value. -/
def I128_MIN : Int := -(2 ^ 127)

/-- Largest `i128` value. -/
def I128_MAX : Int := 2 ^ 127 - 1

/-- Rust `i128::checked_mul`. -/
def checked_mul (a b : Int) : Option Int :=
  if I128_MIN ≤ a * b ∧ a * b ≤ I128_MAX then some (a * b) else none

/-- Rust `i128::checked_add`. -/
def checked_add (a b : Int) : Option Int :=
  if I128_MIN ≤ a + b ∧ a + b ≤ I128_MAX then some (a + b) else none

/-- `BountyEscrowContract::calculate_fee`: returns 0 for a zero rate,
otherwise `(amount * fee_rate) / BASIS_POINTS` with checked arithmetic
collapsing to 0 on overflow.  Rust `/` on `i128` truncates toward zero,
which is `Int.tdiv`. -/
def calculate_fee (amount fee_rate : Int) : Int :=
  if fee_rate = 0 then 0
  else
    match checked_mul amount fee_rate with
    | none => 0
    | some x => Int.tdiv x BASIS_POINTS

/-- `BountyEscrowContract::get_fee_config_internal`: the stored config,
or an all-zero disabled config with the admin as recipient. -/
def get_fee_config_internal (s : ContractState) : FeeConfig :=
  s.fee_config.getD ⟨0, 0, s.admin, false⟩

/-- `{ s with reentrancy_guard := false }`, the
`env.storage().instance().remove(&DataKey::ReentrancyGuard)` step. -/
def clearGuard (s : ContractState) : ContractState :=
  { s with reentrancy_guard := false }

/-- The lock-fee expression of `lock_funds` (source lines 1040-1045):
the computed fee when fees are enabled with a positive lock rate, else 0. -/
def lock_fee (s : ContractState) (amount : Int) : Int :=
  let fc := get_fee_config_internal s
  if fc.fee_enabled ∧ 0 < fc.lock_fee_rate then calculate_fee amount fc.lock_fee_rate else 0

/-- The release-fee expression of `release_funds` (source lines
1216-1221). -/
def release_fee (s : ContractState) (amount : Int) : Int :=
  let fc := get_fee_config_internal s
  if fc.fee_enabled ∧ 0 < fc.release_fee_rate then calculate_fee amount fc.release_fee_rate else 0

/-- Body of `lock_funds` (source lines 981-1103), translated branch by
branch in source order.  Rate limiting and `depositor.require_auth()` are
external aborts, not modelled. -/
def lock_funds_body (now : Nat) (s0 : ContractState) (depositor bounty_id : Nat)
    (amount : Int) (deadline : Nat) :
    CallResult Unit × ContractState × List Transfer :=
  if s0.is_paused then (.err .ContractPaused, s0, [])
  else if s0.reentrancy_guard then (.panicked, s0, [])
  else
    let s1 := { s0 with reentrancy_guard := true }
    if amount ≤ 0 then (.err .InvalidAmount, clearGuard s1, [])
    else if deadline ≤ now then (.err .InvalidDeadline, clearGuard s1, [])
    else if !s1.initialized then (.err .NotInitialized, clearGuard s1, [])
    else if (s1.escrows bounty_id).isSome then (.err .BountyExists, clearGuard s1, [])
    else
      let fc := get_fee_config_internal s1
      let fee_amount := lock_fee s1 amount
      let net_amount := amount - fee_amount
      let feeTr : List Transfer :=
        if 0 < fee_amount then [⟨depositor, fc.fee_recipient, fee_amount⟩] else []
      let escrow : Escrow :=
        { depositor := depositor
          amount := net_amount
          status := .Locked
          deadline := deadline
          refund_history := []
          remaining_amount := amount }
      let s2 := { s1 with
          escrows := setMap s1.escrows bounty_id escrow
          balance := s1.balance + net_amount
          reentrancy_guard := false }
      (.ok (), s2, ⟨depositor, contractAddr, net_amount⟩ :: feeTr)

/-- Modelled from the spec: the Soroban host discards every storage
write and transfer of an invocation that returns an error or panics
("failed calls leave all escrow and fee state unchanged (backed by
host-level atomicity)").  The host itself is outside `src/`; this
wrapper is its semantics. -/
def hostRun {α : Type} (out : CallResult α × ContractState × List Transfer)
    (s : ContractState) : CallResult α × ContractState × List Transfer :=
  match out with
  | (.ok a, s', tr) => (.ok a, s', tr)
  | (.err e, _, _) => (.err e, s, [])
  | (.panicked, _, _) => (.panicked, s, [])

/-- The `lock_funds` entry point as observed by a caller. -/
def lock_funds (now : Nat) (s : ContractState) (depositor bounty_id : Nat)
    (amount : Int) (deadline : Nat) :
    CallResult Unit × ContractState × List Transfer :=
  hostRun (lock_funds_body now s depositor bounty_id amount deadline) s

/-- Body of `release_funds` (source lines 1157-1283) in source order:
guard check and set, init check, pause check, rate limit and
`admin.require_auth()` (external), existence, status, a first storage
write marking the escrow Released, fee computation on the custodied
`amount`, the transfers, then the second write also zeroing
`remaining_amount`. -/
def release_funds_body (s0 : ContractState) (bounty_id contributor : Nat) :
    CallResult Unit × ContractState × List Transfer :=
  if s0.reentrancy_guard then (.panicked, s0, [])
  else
    let s1 := { s0 with reentrancy_guard := true }
    if !s1.initialized then (.err .NotInitialized, clearGuard s1, [])
    else if s1.is_paused then (.err .ContractPaused, clearGuard s1, [])
    else
      match s1.escrows bounty_id with
      | none => (.err .BountyNotFound, clearGuard s1, [])
      | some escrow =>
        if escrow.status ≠ .Locked then (.err .FundsNotLocked, clearGuard s1, [])
        else
          let escrow1 := { escrow with status := .Released }
          let s2 := { s1 with escrows := setMap s1.escrows bounty_id escrow1 }
          let fc := get_fee_config_internal s2
          let fee_amount := release_fee s2 escrow1.amount
          let net_amount := escrow1.amount - fee_amount
          let feeTr : List Transfer :=
            if 0 < fee_amount then [⟨contractAddr, fc.fee_recipient, fee_amount⟩] else []
          let escrow2 := { escrow1 with status := .Released, remaining_amount := 0 }
          let s3 := { s2 with
              escrows := setMap s2.escrows bounty_id escrow2
              balance := s2.balance - net_amount - (if 0 < fee_amount then fee_amount else 0)
              reentrancy_guard := false }
          (.ok (), s3, ⟨contractAddr, contributor, net_amount⟩ :: feeTr)

/-- The `release_funds` entry point as observed by a caller. -/
def release_funds (s : ContractState) (bounty_id contributor : Nat) :
    CallResult Unit × ContractState × List Transfer :=
  hostRun (release_funds_body s bounty_id contributor) s

/-- The mode dispatch of `refund` (source lines 1377-1432): determines
the refund amount and recipient per mode, enforcing the deadline for
Full/Partial and the matching admin approval (consumed on use) for
Custom before the deadline. -/
def refund_mode_dispatch (now : Nat) (s0 : ContractState) (bounty_id : Nat)
    (amount : Option Int) (recipient : Option Nat) (mode : RefundMode)
    (escrow : Escrow) : CallResult (Int × Nat) × ContractState :=
  let is_before_deadline := now < escrow.deadline
  match mode with
  | .Full =>
    if is_before_deadline then (.err .DeadlineNotPassed, s0)
    else (.ok (escrow.remaining_amount, escrow.depositor), s0)
  | .Partial =>
    if is_before_deadline then (.err .DeadlineNotPassed, s0)
    else (.ok (amount.getD escrow.remaining_amount, escrow.depositor), s0)
  | .Custom =>
    match amount, recipient with
    | none, _ => (.err .InvalidAmount, s0)
    | some _, none => (.err .InvalidAmount, s0)
    | some amt, some rec =>
      if is_before_deadline then
        match s0.approvals bounty_id with
        | none => (.err .RefundNotApproved, s0)
        | some approval =>
          if approval.amount ≠ amt ∨ approval.recipient ≠ rec ∨ approval.mode ≠ mode then
            (.err .RefundNotApproved, s0)
          else
            (.ok (amt, rec), { s0 with approvals := removeMap s0.approvals bounty_id })
      else (.ok (amt, rec), s0)

/-- Body of `refund` (source lines 1340-1513) in source order.  Note the
source never sets or checks the reentrancy flag here; it only removes it
on the BountyNotFound path and on success.  In Custom mode before the
deadline the matching approval is removed before the amount validation,
so a later in-body error leaves it removed until the host reverts. -/
def refund_body (now : Nat) (s0 : ContractState) (bounty_id : Nat)
    (amount : Option Int) (recipient : Option Nat) (mode : RefundMode) :
    CallResult Unit × ContractState × List Transfer :=
  if s0.is_paused then (.err .ContractPaused, s0, [])
  else
    match s0.escrows bounty_id with
    | none => (.err .BountyNotFound, clearGuard s0, [])
    | some escrow =>
      if escrow.status ≠ .Locked ∧ escrow.status ≠ .PartiallyRefunded then
        (.err .FundsNotLocked, s0, [])
      else
        match refund_mode_dispatch now s0 bounty_id amount recipient mode escrow with
        | (.err e, s1) => (.err e, s1, [])
        | (.panicked, s1) => (.panicked, s1, [])
        | (.ok (refund_amount, refund_recipient), s1) =>
          if refund_amount ≤ 0 ∨ escrow.remaining_amount < refund_amount then
            (.err .InvalidAmount, s1, [])
          else if s1.balance < refund_amount then (.err .InsufficientFunds, s1, [])
          else
            let record : RefundRecord :=
              { amount := refund_amount
                recipient := refund_recipient
                mode := mode
                timestamp := now }
            let remaining := escrow.remaining_amount - refund_amount
            let escrow2 := { escrow with
                remaining_amount := remaining
                refund_history := escrow.refund_history ++ [record]
                status := if remaining = 0 then .Refunded else .PartiallyRefunded }
            let s2 := { s1 with
                escrows := setMap s1.escrows bounty_id escrow2
                balance := s1.balance - refund_amount
                reentrancy_guard := false }
            (.ok (), s2, [⟨contractAddr, refund_recipient, refund_amount⟩])

/-- The `refund` entry point as observed by a caller. -/
def refund (now : Nat) (s : ContractState) (bounty_id : Nat)
    (amount : Option Int) (recipient : Option Nat) (mode : RefundMode) :
    CallResult Unit × ContractState × List Transfer :=
  hostRun (refund_body now s bounty_id amount recipient mode) s

/-- Body of `approve_refund` (source lines 1287-1334). -/
def approve_refund_body (now : Nat) (s0 : ContractState) (bounty_id : Nat)
    (amount : Int) (recipient : Nat) (mode : RefundMode) :
    CallResult Unit × ContractState × List Transfer :=
  if !s0.initialized then (.err .NotInitialized, s0, [])
  else
    match s0.escrows bounty_id with
    | none => (.err .BountyNotFound, s0, [])
    | some escrow =>
      if escrow.status ≠ .Locked ∧ escrow.status ≠ .PartiallyRefunded then
        (.err .FundsNotLocked, s0, [])
      else if amount ≤ 0 ∨ escrow.remaining_amount < amount then
        (.err .InvalidAmount, s0, [])
      else
        let approval : RefundApproval :=
          { bounty_id := bounty_id
            amount := amount
            recipient := recipient
            mode := mode
            approved_by := s0.admin
            approved_at := now }
        (.ok (), { s0 with approvals := setMap s0.approvals bounty_id approval }, [])

/-- The `approve_refund` entry point as observed by a caller. -/
def approve_refund (now : Nat) (s : ContractState) (bounty_id : Nat)
    (amount : Int) (recipient : Nat) (mode : RefundMode) :
    CallResult Unit × ContractState × List Transfer :=
  hostRun (approve_refund_body now s bounty_id amount recipient mode) s

/-- Number of items in `items` carrying the given bounty id: the inner
duplicate-counting loop of both batch validators. -/
def countId (ids : List Nat) (i : Nat) : Nat :=
  (ids.filter (fun j => j = i)).length

/-- The validation loop of `batch_lock_funds` (source lines 1702-1727):
per item, in order, existing bounty id, non-positive amount, duplicate id
within the batch.  There is no deadline check in the source. -/
def validate_lock_items (s : ContractState) (all : List LockFundsItem) :
    List LockFundsItem → Option Error
  | [] => none
  | it :: rest =>
    if (s.escrows it.bounty_id).isSome then some .BountyExists
    else if it.amount ≤ 0 then some .InvalidAmount
    else if 1 < countId (all.map (·.bounty_id)) it.bounty_id then some .DuplicateBountyId
    else validate_lock_items s all rest

/-- The execution loop of `batch_lock_funds` (source lines 1747-1788):
transfer, create the escrow with `amount = remaining_amount =
item.amount` (no fee is charged on this path), store, count. -/
def batch_lock_exec (s : ContractState) (tr : List Transfer) (n : Nat) :
    List LockFundsItem → ContractState × List Transfer × Nat
  | [] => (s, tr, n)
  | it :: rest =>
    let escrow : Escrow :=
      { depositor := it.depositor
        amount := it.amount
        status := .Locked
        deadline := it.deadline
        refund_history := []
        remaining_amount := it.amount }
    let s' := { s with
        escrows := setMap s.escrows it.bounty_id escrow
        balance := s.balance + it.amount }
    batch_lock_exec s' (tr ++ [⟨it.depositor, contractAddr, it.amount⟩]) (n + 1) rest

/-- Body of `batch_lock_funds` (source lines 1677-1801): size bounds,
pause and init checks, the validation pass, depositor auth dedup
(external), then the execution pass. -/
def batch_lock_funds_body (s0 : ContractState) (items : List LockFundsItem) :
    CallResult Nat × ContractState × List Transfer :=
  if items.length = 0 then (.err .InvalidBatchSize, s0, [])
  else if MAX_BATCH_SIZE < items.length then (.err .InvalidBatchSize, s0, [])
  else if s0.is_paused then (.err .ContractPaused, s0, [])
  else if !s0.initialized then (.err .NotInitialized, s0, [])
  else
    match validate_lock_items s0 items items with
    | some e => (.err e, s0, [])
    | none =>
      let (s1, tr, n) := batch_lock_exec s0 [] 0 items
      (.ok n, s1, tr)

/-- The `batch_lock_funds` entry point as observed by a caller. -/
def batch_lock_funds (s : ContractState) (items : List LockFundsItem) :
    CallResult Nat × ContractState × List Transfer :=
  hostRun (batch_lock_funds_body s items) s

/-- The validation loop of `batch_release_funds` (source lines
1848-1884): per item, existence, Locked status, duplicate id within the
batch, and a checked running total of the custodied amounts. -/
def validate_release_items (s : ContractState) (all : List ReleaseFundsItem) :
    List ReleaseFundsItem → Int → Option Error
  | [], _ => none
  | it :: rest, tot =>
    match s.escrows it.bounty_id with
    | none => some .BountyNotFound
    | some escrow =>
      if escrow.status ≠ .Locked then some .FundsNotLocked
      else if 1 < countId (all.map (·.bounty_id)) it.bounty_id then some .DuplicateBountyId
      else
        match checked_add tot escrow.amount with
        | none => some .InvalidAmount
        | some t => validate_release_items s all rest t

/-- The execution loop of `batch_release_funds` (source lines
1887-1926): per item, transfer the custodied `amount` to the contributor
and store the escrow with `status := Released` — `remaining_amount` is
left untouched on this path.  The source `unwrap`s the storage read; a
missing id surfaces as a panic. -/
def batch_release_exec (s : ContractState) (tr : List Transfer) (n : Nat) :
    List ReleaseFundsItem → CallResult Nat × ContractState × List Transfer
  | [] => (.ok n, s, tr)
  | it :: rest =>
    match s.escrows it.bounty_id with
    | none => (.panicked, s, tr)
    | some escrow =>
      let escrow' := { escrow with status := .Released }
      let s' := { s with
          escrows := setMap s.escrows it.bounty_id escrow'
          balance := s.balance - escrow.amount }
      batch_release_exec s' (tr ++ [⟨contractAddr, it.contributor, escrow.amount⟩]) (n + 1) rest

/-- Body of `batch_release_funds` (source lines 1820-1939). -/
def batch_release_funds_body (s0 : ContractState) (items : List ReleaseFundsItem) :
    CallResult Nat × ContractState × List Transfer :=
  if items.length = 0 then (.err .InvalidBatchSize, s0, [])
  else if MAX_BATCH_SIZE < items.length then (.err .InvalidBatchSize, s0, [])
  else if s0.is_paused then (.err .ContractPaused, s0, [])
  else if !s0.initialized then (.err .NotInitialized, s0, [])
  else
    match validate_release_items s0 items items 0 with
    | some e => (.err e, s0, [])
    | none => batch_release_exec s0 [] 0 items

/-- The `batch_release_funds` entry point as observed by a caller. -/
def batch_release_funds (s : ContractState) (items : List ReleaseFundsItem) :
    CallResult Nat × ContractState × List Transfer :=
  hostRun (batch_release_funds_body s items) s

/-- Body of `init` (source lines 671-727). -/
def init_body (s0 : ContractState) (admin : Nat) :
    CallResult Unit × ContractState × List Transfer :=
  if s0.initialized then (.err .AlreadyInitialized, s0, [])
  else
    (.ok (), { s0 with
        initialized := true
        admin := admin
        fee_config := some { lock_fee_rate := 0, release_fee_rate := 0,
                             fee_recipient := admin, fee_enabled := false } }, [])

/-- The `init` entry point as observed by a caller. -/
def init (s : ContractState) (admin : Nat) :
    CallResult Unit × ContractState × List Transfer :=
  hostRun (init_body s admin) s

/-- Body of `update_fee_config` (source lines 756-810). -/
def update_fee_config_body (s0 : ContractState) (lock_fee_rate release_fee_rate : Option Int)
    (fee_recipient : Option Nat) (fee_enabled : Option Bool) :
    CallResult Unit × ContractState × List Transfer :=
  if !s0.initialized then (.err .NotInitialized, s0, [])
  else
    let fc0 := get_fee_config_internal s0
    let step1 : CallResult FeeConfig :=
      match lock_fee_rate with
      | none => .ok fc0
      | some rate =>
        if 0 ≤ rate ∧ rate ≤ MAX_FEE_RATE then .ok { fc0 with lock_fee_rate := rate }
        else .err .InvalidFeeRate
    match step1 with
    | .err e => (.err e, s0, [])
    | .panicked => (.panicked, s0, [])
    | .ok fc1 =>
      let step2 : CallResult FeeConfig :=
        match release_fee_rate with
        | none => .ok fc1
        | some rate =>
          if 0 ≤ rate ∧ rate ≤ MAX_FEE_RATE then .ok { fc1 with release_fee_rate := rate }
          else .err .InvalidFeeRate
      match step2 with
      | .err e => (.err e, s0, [])
      | .panicked => (.panicked, s0, [])
      | .ok fc2 =>
        let fc3 := match fee_recipient with
          | none => fc2
          | some r => { fc2 with fee_recipient := r }
        let fc4 := match fee_enabled with
          | none => fc3
          | some b => { fc3 with fee_enabled := b }
        (.ok (), { s0 with fee_config := some fc4 }, [])

/-- The `update_fee_config` entry point as observed by a caller. -/
def update_fee_config (s : ContractState) (lock_fee_rate release_fee_rate : Option Int)
    (fee_recipient : Option Nat) (fee_enabled : Option Bool) :
    CallResult Unit × ContractState × List Transfer :=
  hostRun (update_fee_config_body s lock_fee_rate release_fee_rate fee_recipient fee_enabled) s

/-- Body of `pause` (source lines 836-859). -/
def pause_body (s0 : ContractState) : CallResult Unit × ContractState × List Transfer :=
  if !s0.initialized then (.err .NotInitialized, s0, [])
  else if s0.is_paused then (.ok (), s0, [])
  else (.ok (), { s0 with is_paused := true }, [])

/-- The `pause` entry point as observed by a caller. -/
def pause (s : ContractState) : CallResult Unit × ContractState × List Transfer :=
  hostRun (pause_body s) s

/-- Body of `unpause` (source lines 863-886). -/
def unpause_body (s0 : ContractState) : CallResult Unit × ContractState × List Transfer :=
  if !s0.initialized then (.err .NotInitialized, s0, [])
  else if !s0.is_paused then (.ok (), s0, [])
  else (.ok (), { s0 with is_paused := false }, [])

/-- The `unpause` entry point as observed by a caller. -/
def unpause (s : ContractState) : CallResult Unit × ContractState × List Transfer :=
  hostRun (unpause_body s) s

/-- Body of `emergency_withdraw` (source lines 892-929). -/
def emergency_withdraw_body (s0 : ContractState) (recipient : Nat) :
    CallResult Unit × ContractState × List Transfer :=
  if !s0.initialized then (.err .NotInitialized, s0, [])
  else if !s0.is_paused then (.err .Unauthorized, s0, [])
  else if s0.balance ≤ 0 then (.ok (), s0, [])
  else (.ok (), { s0 with balance := 0 }, [⟨contractAddr, recipient, s0.balance⟩])

/-- The `emergency_withdraw` entry point as observed by a caller. -/
def emergency_withdraw (s : ContractState) (recipient : Nat) :
    CallResult Unit × ContractState × List Transfer :=
  hostRun (emergency_withdraw_body s recipient) s

/-- Sum of the amounts in a refund history. -/
def sumHistory (h : List RefundRecord) : Int :=
  (h.map (·.amount)).sum

/-- One successful fund-moving call, as observed by a caller: any of the
five entry points of the claim, with arbitrary arguments and ledger
time. -/
inductive Step : ContractState → ContractState → Prop where
  | lock (now : Nat) (s : ContractState) (dep bid : Nat) (amt : Int) (dl : Nat)
      (h : (lock_funds now s dep bid amt dl).1 = .ok ()) :
      Step s (lock_funds now s dep bid amt dl).2.1
  | release (s : ContractState) (bid contrib : Nat)
      (h : (release_funds s bid contrib).1 = .ok ()) :
      Step s (release_funds s bid contrib).2.1
  | refundStep (now : Nat) (s : ContractState) (bid : Nat) (oamt : Option Int)
      (orec : Option Nat) (mode : RefundMode)
      (h : (refund now s bid oamt orec mode).1 = .ok ()) :
      Step s (refund now s bid oamt orec mode).2.1
  | batchLock (s : ContractState) (items : List LockFundsItem) (n : Nat)
      (h : (batch_lock_funds s items).1 = .ok n) :
      Step s (batch_lock_funds s items).2.1
  | batchRelease (s : ContractState) (items : List ReleaseFundsItem) (n : Nat)
      (h : (batch_release_funds s items).1 = .ok n) :
      Step s (batch_release_funds s items).2.1

/-- States reachable for bounty id `bid` after it was locked with gross
(pre-fee) amount `g` by a successful `lock_funds` or `batch_lock_funds`,
followed by any sequence of successful fund-moving calls. -/
inductive Trace (bid : Nat) (g : Int) : ContractState → Prop where
  | base_lock (now : Nat) (s : ContractState) (dep : Nat) (dl : Nat)
      (h : (lock_funds now s dep bid g dl).1 = .ok ()) :
      Trace bid g (lock_funds now s dep bid g dl).2.1
  | base_batch_lock (s : ContractState) (items : List LockFundsItem)
      (it : LockFundsItem) (n : Nat) (hmem : it ∈ items) (hid : it.bounty_id = bid)
      (hamt : it.amount = g) (h : (batch_lock_funds s items).1 = .ok n) :
      Trace bid g (batch_lock_funds s items).2.1
  | step (s s' : ContractState) (ht : Trace bid g s) (hs : Step s s') :
      Trace bid g s'

/-- An initialized, unpaused state with no escrows, fees disabled, and
admin address 9: the state right after `init` on a fresh contract. -/
def baseState : ContractState :=
  { initialized := true, admin := 9, escrows := fun _ => none,
    approvals := fun _ => none, fee_config := some ⟨0, 0, 9, false⟩,
    is_paused := false, reentrancy_guard := false, balance := 0 }

/-- `baseState` with a 1% (100 basis points) lock fee enabled, paid to
address 7. -/
def feeState : ContractState :=
  { baseState with fee_config := some ⟨100, 0, 7, true⟩ }

/-- The state after depositor 5 locks 100 tokens for bounty 1 with
deadline 50 (fees disabled): one Locked escrow, balance 100. -/
def lockedState : ContractState := (lock_funds 0 baseState 5 1 100 50).2.1

/-- `lockedState` with the transient reentrancy flag artificially set,
standing for a nested call started while an outer call is running. -/
def lockedGuardState : ContractState := { lockedState with reentrancy_guard := true }

/-- `lockedState` after `release_funds` sent the funds to contributor 6:
the escrow is Released. -/
def releasedState : ContractState := (release_funds lockedState 1 6).2.1

/-- `lockedState` after the admin approves a Custom refund of 30 to
address 8 at time 10. -/
def approvedState : ContractState := (approve_refund 10 lockedState 1 30 8 .Custom).2.1

/-- `approvedState` after the approved Custom refund of 30 to address 8
executes at time 20 (before the deadline 50). -/
def consumedState : ContractState :=
  (refund 20 approvedState 1 (some 30) (some 8) .Custom).2.1

/-- `approvedState` with the contract's token balance artificially
lowered below the approved refund amount. -/
def lowBalanceState : ContractState := { approvedState with balance := 10 }

-- ===================== general helper lemmas =====================

theorem setMap_same {α : Type} (f : Nat → Option α) (k : Nat) (v : α) :
    setMap f k v k = some v := by simp [setMap]

theorem setMap_other {α : Type} (f : Nat → Option α) (k k' : Nat) (v : α) (h : k' ≠ k) :
    setMap f k v k' = f k' := by simp [setMap, h]

theorem setMap_setMap_same {α : Type} (f : Nat → Option α) (k : Nat) (v w : α) :
    setMap (setMap f k v) k w = setMap f k w := by
  funext k'
  by_cases h : k' = k <;> simp [setMap, h]

/-- An invocation that the host observes as an error leaves the pre-call
state untouched. -/
theorem hostRun_err {α : Type} (out : CallResult α × ContractState × List Transfer)
    (s : ContractState) (e : Error) (h : (hostRun out s).1 = .err e) :
    (hostRun out s).2.1 = s := by
  obtain ⟨r, s', tr⟩ := out
  cases r <;> simp [hostRun] at h ⊢

/-- An invocation that the host observes as a panic leaves the pre-call
state untouched. -/
theorem hostRun_panicked {α : Type} (out : CallResult α × ContractState × List Transfer)
    (s : ContractState) (h : (hostRun out s).1 = .panicked) :
    (hostRun out s).2.1 = s := by
  obtain ⟨r, s', tr⟩ := out
  cases r <;> simp [hostRun] at h ⊢

/-- A successful invocation is the body's own output. -/
theorem hostRun_ok {α : Type} (out : CallResult α × ContractState × List Transfer)
    (s : ContractState) (a : α) (h : (hostRun out s).1 = .ok a) :
    out.1 = .ok a ∧ (hostRun out s).2 = out.2 := by
  obtain ⟨r, s', tr⟩ := out
  cases r <;> simp [hostRun] at h ⊢
  exact h

theorem release_funds_body_ok_spec (s : ContractState) (bounty_id contributor : Nat)
    (h : (release_funds_body s bounty_id contributor).1 = .ok ()) :
    s.reentrancy_guard = false ∧ s.initialized = true ∧ s.is_paused = false ∧
    ∃ e, s.escrows bounty_id = some e ∧ e.status = .Locked ∧
      (release_funds_body s bounty_id contributor).2.1.escrows =
        setMap s.escrows bounty_id { e with status := .Released, remaining_amount := 0 } := by
  unfold release_funds_body at h ⊢
  by_cases hg : s.reentrancy_guard <;> simp [hg] at h ⊢
  by_cases hi : s.initialized <;> simp [hi] at h ⊢
  by_cases hp : s.is_paused <;> simp [hp] at h ⊢
  cases he : s.escrows bounty_id with
  | none => simp [he] at h
  | some e =>
    simp [he] at h ⊢
    by_cases hst : e.status = EscrowStatus.Locked
    · simp [hst, setMap_setMap_same]
    · simp [hst] at h



theorem lock_funds_body_ok_spec (now : Nat) (s : ContractState) (dep bounty_id : Nat)
    (amt : Int) (dl : Nat)
    (h : (lock_funds_body now s dep bounty_id amt dl).1 = .ok ()) :
    s.is_paused = false ∧ s.reentrancy_guard = false ∧ 0 < amt ∧ now < dl ∧
    s.initialized = true ∧ s.escrows bounty_id = none ∧
    (lock_funds_body now s dep bounty_id amt dl).2.1.escrows =
      setMap s.escrows bounty_id
        { depositor := dep, amount := amt - lock_fee s amt, status := .Locked,
          deadline := dl, refund_history := [], remaining_amount := amt } ∧
    (lock_funds_body now s dep bounty_id amt dl).2.2 =
      ⟨dep, contractAddr, amt - lock_fee s amt⟩ ::
        (if 0 < lock_fee s amt then
          [⟨dep, (get_fee_config_internal s).fee_recipient, lock_fee s amt⟩] else []) := by
  cases hp : s.is_paused with
  | true => simp [lock_funds_body, hp] at h
  | false =>
  cases hg : s.reentrancy_guard with
  | true => simp [lock_funds_body, hp, hg] at h
  | false =>
  by_cases ha : amt ≤ 0
  · simp [lock_funds_body, hp, hg, ha] at h
  by_cases hd : dl ≤ now
  · simp [lock_funds_body, hp, hg, ha, hd] at h
  cases hi : s.initialized with
  | false => simp [lock_funds_body, hp, hg, ha, hd, hi] at h
  | true =>
  cases he : s.escrows bounty_id with
  | some e => simp [lock_funds_body, hp, hg, ha, hd, hi, he] at h
  | none =>
    refine ⟨rfl, rfl, by omega, by omega, rfl, rfl, ?_, ?_⟩ <;>
      simp [lock_funds_body, hp, hg, ha, hd, hi, he, lock_fee, get_fee_config_internal]

theorem refund_body_ok_spec (now : Nat) (s : ContractState) (bounty_id : Nat)
    (oamt : Option Int) (orec : Option Nat) (mode : RefundMode)
    (h : (refund_body now s bounty_id oamt orec mode).1 = .ok ()) :
    s.is_paused = false ∧
    ∃ e, s.escrows bounty_id = some e ∧
      (e.status = .Locked ∨ e.status = .PartiallyRefunded) ∧
      ∃ a recip, 0 < a ∧ a ≤ e.remaining_amount ∧
        ((mode = .Full ∨ mode = .Partial) → (now ≥ e.deadline ∧ recip = e.depositor)) ∧
        (mode = .Full → a = e.remaining_amount) ∧
        (mode = .Partial → a = oamt.getD e.remaining_amount) ∧
        (mode = .Custom → oamt = some a ∧ orec = some recip) ∧
        (refund_body now s bounty_id oamt orec mode).2.1.escrows =
          setMap s.escrows bounty_id
            { e with remaining_amount := e.remaining_amount - a,
                     refund_history := e.refund_history ++ [⟨a, recip, mode, now⟩],
                     status := if e.remaining_amount - a = 0 then .Refunded
                               else .PartiallyRefunded } ∧
        (refund_body now s bounty_id oamt orec mode).2.2 = [⟨contractAddr, recip, a⟩] := by
  cases hp : s.is_paused with
  | true => simp [refund_body, refund_mode_dispatch, hp] at h
  | false =>
  cases he : s.escrows bounty_id with
  | none => simp [refund_body, refund_mode_dispatch, hp, he] at h
  | some e =>
  by_cases hst : e.status ≠ EscrowStatus.Locked ∧ e.status ≠ EscrowStatus.PartiallyRefunded
  · simp [refund_body, refund_mode_dispatch, hp, he, hst] at h
  refine ⟨rfl, e, rfl, by tauto, ?_⟩
  cases mode with
  | Full =>
    by_cases hb : now < e.deadline
    · simp [refund_body, refund_mode_dispatch, hp, he, hst, hb] at h
    by_cases hv1 : e.remaining_amount ≤ 0
    · simp [refund_body, refund_mode_dispatch, hp, he, hst, hb, hv1] at h
    by_cases hbal : s.balance < e.remaining_amount
    · simp [refund_body, refund_mode_dispatch, hp, he, hst, hb, hv1, hbal] at h
    refine ⟨e.remaining_amount, e.depositor, by omega, le_refl _,
      fun _ => ⟨by omega, rfl⟩, fun _ => rfl, ?_, ?_, ?_, ?_⟩
    · intro hc; cases hc
    · intro hc; cases hc
    · simp [refund_body, refund_mode_dispatch, hp, he, hst, hb, hv1, hbal]
    · simp [refund_body, refund_mode_dispatch, hp, he, hst, hb, hv1, hbal]
  | Partial =>
    by_cases hb : now < e.deadline
    · simp [refund_body, refund_mode_dispatch, hp, he, hst, hb] at h
    by_cases hv1 : oamt.getD e.remaining_amount ≤ 0
    · simp [refund_body, refund_mode_dispatch, hp, he, hst, hb, hv1] at h
    by_cases hv2 : e.remaining_amount < oamt.getD e.remaining_amount
    · simp [refund_body, refund_mode_dispatch, hp, he, hst, hb, hv1, hv2] at h
    by_cases hbal : s.balance < oamt.getD e.remaining_amount
    · simp [refund_body, refund_mode_dispatch, hp, he, hst, hb, hv1, hv2, hbal] at h
    refine ⟨oamt.getD e.remaining_amount, e.depositor, by omega, by omega,
      fun _ => ⟨by omega, rfl⟩, ?_, fun _ => rfl, ?_, ?_, ?_⟩
    · intro hc; cases hc
    · intro hc; cases hc
    · simp [refund_body, refund_mode_dispatch, hp, he, hst, hb, hv1, hv2, hbal]
    · simp [refund_body, refund_mode_dispatch, hp, he, hst, hb, hv1, hv2, hbal]
  | Custom =>
    cases oamt with
    | none => simp [refund_body, refund_mode_dispatch, hp, he, hst] at h
    | some amt =>
    cases orec with
    | none => simp [refund_body, refund_mode_dispatch, hp, he, hst] at h
    | some rec =>
    by_cases hb : now < e.deadline
    · cases happ : s.approvals bounty_id with
      | none => simp [refund_body, refund_mode_dispatch, hp, he, hst, hb, happ] at h
      | some appr =>
      by_cases hm : appr.amount ≠ amt ∨ appr.recipient ≠ rec ∨ appr.mode ≠ RefundMode.Custom
      · simp [refund_body, refund_mode_dispatch, hp, he, hst, hb, happ, hm] at h
      by_cases hv1 : amt ≤ 0
      · simp [refund_body, refund_mode_dispatch, hp, he, hst, hb, happ, hm, hv1] at h
      by_cases hv2 : e.remaining_amount < amt
      · simp [refund_body, refund_mode_dispatch, hp, he, hst, hb, happ, hm, hv1, hv2] at h
      by_cases hbal : s.balance < amt
      · simp [refund_body, refund_mode_dispatch, hp, he, hst, hb, happ, hm, hv1, hv2, hbal] at h
      refine ⟨amt, rec, by omega, by omega, by tauto, ?_, ?_, fun _ => ⟨rfl, rfl⟩, ?_, ?_⟩
      · intro hc; cases hc
      · intro hc; cases hc
      · simp [refund_body, refund_mode_dispatch, hp, he, hst, hb, happ, hm, hv1, hv2, hbal]
      · simp [refund_body, refund_mode_dispatch, hp, he, hst, hb, happ, hm, hv1, hv2, hbal]
    · by_cases hv1 : amt ≤ 0
      · simp [refund_body, refund_mode_dispatch, hp, he, hst, hb, hv1] at h
      by_cases hv2 : e.remaining_amount < amt
      · simp [refund_body, refund_mode_dispatch, hp, he, hst, hb, hv1, hv2] at h
      by_cases hbal : s.balance < amt
      · simp [refund_body, refund_mode_dispatch, hp, he, hst, hb, hv1, hv2, hbal] at h
      refine ⟨amt, rec, by omega, by omega, by tauto, ?_, ?_, fun _ => ⟨rfl, rfl⟩, ?_, ?_⟩
      · intro hc; cases hc
      · intro hc; cases hc
      · simp [refund_body, refund_mode_dispatch, hp, he, hst, hb, hv1, hv2, hbal]
      · simp [refund_body, refund_mode_dispatch, hp, he, hst, hb, hv1, hv2, hbal]

theorem countId_cons (x : Nat) (xs : List Nat) (j : Nat) :
    countId (x :: xs) j = (if x = j then 1 else 0) + countId xs j := by
  by_cases h : x = j <;> simp [countId, List.filter_cons, h]
  omega

theorem countId_pos_of_mem {xs : List Nat} {j : Nat} (h : j ∈ xs) : 1 ≤ countId xs j := by
  induction xs with
  | nil => cases h
  | cons x xs ih =>
    rw [countId_cons]
    rcases List.mem_cons.mp h with h' | h'
    · simp [h'.symm]  -- wait direction
    · have := ih h'
      omega

theorem validate_lock_items_ok (s : ContractState) (all : List LockFundsItem) :
    ∀ l : List LockFundsItem, validate_lock_items s all l = none →
    ∀ it ∈ l, s.escrows it.bounty_id = none ∧ 0 < it.amount ∧
      countId (all.map (·.bounty_id)) it.bounty_id ≤ 1 := by
  intro l
  induction l with
  | nil => intro _ it hmem; cases hmem
  | cons x xs ih =>
    intro h it hmem
    unfold validate_lock_items at h
    by_cases h1 : (s.escrows x.bounty_id).isSome
    · simp [h1] at h
    by_cases h2 : x.amount ≤ 0
    · simp [h1, h2] at h
    by_cases h3 : 1 < countId (all.map (·.bounty_id)) x.bounty_id
    · simp [h1, h2, h3] at h
    simp [h1, h2, h3] at h
    rcases List.mem_cons.mp hmem with h' | h'
    · subst h'
      exact ⟨Option.not_isSome_iff_eq_none.mp h1, by omega, by omega⟩
    · exact ih h it h'

theorem validate_release_items_ok (s : ContractState) (all : List ReleaseFundsItem) :
    ∀ (l : List ReleaseFundsItem) (tot : Int), validate_release_items s all l tot = none →
    ∀ it ∈ l, ∃ e, s.escrows it.bounty_id = some e ∧ e.status = .Locked ∧
      countId (all.map (·.bounty_id)) it.bounty_id ≤ 1 := by
  intro l
  induction l with
  | nil => intro _ _ it hmem; cases hmem
  | cons x xs ih =>
    intro tot h it hmem
    unfold validate_release_items at h
    cases he : s.escrows x.bounty_id with
    | none => simp [he] at h
    | some e =>
    by_cases h2 : e.status ≠ EscrowStatus.Locked
    · simp [he, h2] at h
    by_cases h3 : 1 < countId (all.map (·.bounty_id)) x.bounty_id
    · simp [he, h2, h3] at h
    cases ha : checked_add tot e.amount with
    | none => simp [he, h2, h3, ha] at h
    | some t =>
    simp [he, h2, h3, ha] at h
    rcases List.mem_cons.mp hmem with h' | h'
    · subst h'
      exact ⟨e, he, by tauto, by omega⟩
    · exact ih t h it h'

theorem batch_lock_exec_not_mem (l : List LockFundsItem) :
    ∀ (s : ContractState) (tr : List Transfer) (n : Nat) (j : Nat),
    j ∉ l.map (·.bounty_id) →
    ((batch_lock_exec s tr n l).1).escrows j = s.escrows j := by
  induction l with
  | nil => intro s tr n j _; rfl
  | cons x xs ih =>
    intro s tr n j hj
    simp only [List.map_cons, List.mem_cons, not_or] at hj
    unfold batch_lock_exec
    rw [ih _ _ _ _ hj.2]
    exact setMap_other _ _ _ _ hj.1

theorem batch_lock_exec_unique (l : List LockFundsItem) :
    ∀ (s : ContractState) (tr : List Transfer) (n : Nat) (it : LockFundsItem),
    it ∈ l → countId (l.map (·.bounty_id)) it.bounty_id = 1 →
    ((batch_lock_exec s tr n l).1).escrows it.bounty_id =
      some { depositor := it.depositor, amount := it.amount, status := .Locked,
             deadline := it.deadline, refund_history := [], remaining_amount := it.amount } := by
  induction l with
  | nil => intro _ _ _ _ hmem; cases hmem
  | cons x xs ih =>
    intro s tr n it hmem hc
    rw [List.map_cons, countId_cons] at hc
    by_cases hx : x.bounty_id = it.bounty_id
    · -- the head already carries the id, so it occurs nowhere in xs
      have hxs : it.bounty_id ∉ xs.map (·.bounty_id) := by
        intro hmem'
        have := countId_pos_of_mem hmem'
        simp [hx] at hc
        omega
      have hxit : it = x := by
        rcases List.mem_cons.mp hmem with h | h
        · exact h
        · exact absurd (List.mem_map_of_mem (·.bounty_id) h) hxs
      subst hxit
      unfold batch_lock_exec
      rw [batch_lock_exec_not_mem xs _ _ _ _ hxs]
      exact setMap_same _ _ _
    · have hit : it ∈ xs := by
        rcases List.mem_cons.mp hmem with h | h
        · exact absurd (congrArg (·.bounty_id) h).symm hx
        · exact h
      have hc' : countId (xs.map (·.bounty_id)) it.bounty_id = 1 := by
        simp [hx] at hc
        omega
      unfold batch_lock_exec
      exact ih _ _ _ it hit hc'


theorem batch_release_exec_not_mem (l : List ReleaseFundsItem) :
    ∀ (s : ContractState) (tr : List Transfer) (n : Nat) (j : Nat),
    j ∉ l.map (·.bounty_id) →
    ((batch_release_exec s tr n l).2.1).escrows j = s.escrows j := by
  induction l with
  | nil => intro s tr n j _; rfl
  | cons x xs ih =>
    intro s tr n j hj
    simp only [List.map_cons, List.mem_cons, not_or] at hj
    unfold batch_release_exec
    cases he : s.escrows x.bounty_id with
    | none => rfl
    | some e =>
      rw [ih _ _ _ _ hj.2]
      exact setMap_other _ _ _ _ hj.1

theorem batch_release_exec_pointwise (l : List ReleaseFundsItem) :
    ∀ (s : ContractState) (tr : List Transfer) (n : Nat) (j : Nat),
    ((batch_release_exec s tr n l).2.1).escrows j = s.escrows j ∨
    ∃ e, s.escrows j = some e ∧
      ((batch_release_exec s tr n l).2.1).escrows j = some { e with status := .Released } := by
  induction l with
  | nil => intro s tr n j; exact Or.inl rfl
  | cons x xs ih =>
    intro s tr n j
    cases he : s.escrows x.bounty_id with
    | none => exact Or.inl (by simp only [batch_release_exec, he])
    | some e =>
      simp only [batch_release_exec, he]
      by_cases hj : j = x.bounty_id
      · rcases ih ({ s with
            escrows := setMap s.escrows x.bounty_id { e with status := .Released }
            balance := s.balance - e.amount }) (tr ++ [⟨contractAddr, x.contributor, e.amount⟩])
            (n + 1) j with h | ⟨e', he', h⟩
        · refine Or.inr ⟨e, by rw [hj]; exact he, ?_⟩
          rw [h]
          show setMap s.escrows x.bounty_id _ j = _
          simp [setMap, hj]
        · refine Or.inr ⟨e, by rw [hj]; exact he, ?_⟩
          have he'' : e' = { e with status := .Released } := by
            have : setMap s.escrows x.bounty_id { e with status := .Released } j =
                some { e with status := .Released } := by simp [setMap, hj]
            rw [show ({ s with
                escrows := setMap s.escrows x.bounty_id { e with status := .Released }
                balance := s.balance - e.amount } : ContractState).escrows j =
                setMap s.escrows x.bounty_id { e with status := .Released } j from rfl,
              this] at he'
            exact (Option.some.injEq _ _ ▸ he').symm
          rw [h, he'']
      · rcases ih ({ s with
            escrows := setMap s.escrows x.bounty_id { e with status := .Released }
            balance := s.balance - e.amount }) (tr ++ [⟨contractAddr, x.contributor, e.amount⟩])
            (n + 1) j with h | ⟨e', he', h⟩
        · rw [h]
          show setMap s.escrows x.bounty_id _ j = _ ∨ _
          rw [setMap_other _ _ _ _ hj]
          exact Or.inl rfl
        · have : setMap s.escrows x.bounty_id { e with status := .Released } j = s.escrows j :=
            setMap_other _ _ _ _ hj
          rw [show ({ s with
              escrows := setMap s.escrows x.bounty_id { e with status := .Released }
              balance := s.balance - e.amount } : ContractState).escrows j =
              setMap s.escrows x.bounty_id { e with status := .Released } j from rfl,
            this] at he'
          exact Or.inr ⟨e', he', h⟩

theorem batch_release_exec_item (l : List ReleaseFundsItem) :
    ∀ (s : ContractState) (tr : List Transfer) (n : Nat) (it : ReleaseFundsItem) (e : Escrow)
    (m : Nat), it ∈ l → countId (l.map (·.bounty_id)) it.bounty_id = 1 →
    s.escrows it.bounty_id = some e → (batch_release_exec s tr n l).1 = .ok m →
    ((batch_release_exec s tr n l).2.1).escrows it.bounty_id =
      some { e with status := .Released } := by
  induction l with
  | nil => intro _ _ _ _ _ _ hmem; cases hmem
  | cons x xs ih =>
    intro s tr n it e m hmem hc he hok
    rw [List.map_cons, countId_cons] at hc
    by_cases hx : x.bounty_id = it.bounty_id
    · have hxs : it.bounty_id ∉ xs.map (·.bounty_id) := by
        intro hmem'
        have := countId_pos_of_mem hmem'
        simp [hx] at hc
        omega
      have hxe : s.escrows x.bounty_id = some e := by rw [hx]; exact he
      simp only [batch_release_exec, hxe]
      rw [batch_release_exec_not_mem xs _ _ _ _ hxs]
      show setMap s.escrows x.bounty_id _ it.bounty_id = _
      simp [setMap, hx]
    · have hit : it ∈ xs := by
        rcases List.mem_cons.mp hmem with h | h
        · exact absurd (congrArg (·.bounty_id) h).symm hx
        · exact h
      have hc' : countId (xs.map (·.bounty_id)) it.bounty_id = 1 := by
        simp [hx] at hc
        omega
      cases hxe : s.escrows x.bounty_id with
      | none => simp only [batch_release_exec, hxe] at hok; cases hok
      | some ex =>
        simp only [batch_release_exec, hxe] at hok ⊢
        refine ih _ _ _ it e m hit hc' ?_ hok
        show setMap s.escrows x.bounty_id _ it.bounty_id = _
        rw [setMap_other _ _ _ _ (fun hh => hx hh.symm)]
        exact he

theorem batch_lock_funds_body_ok_spec (s : ContractState) (items : List LockFundsItem)
    (n : Nat) (h : (batch_lock_funds_body s items).1 = .ok n) :
    0 < items.length ∧ items.length ≤ MAX_BATCH_SIZE ∧ s.is_paused = false ∧
    s.initialized = true ∧ validate_lock_items s items items = none ∧
    (batch_lock_funds_body s items).2.1 = (batch_lock_exec s [] 0 items).1 := by
  unfold batch_lock_funds_body at h ⊢
  by_cases h0 : items.length = 0
  · simp [h0] at h
  by_cases h1 : MAX_BATCH_SIZE < items.length
  · simp [h0, h1] at h
  cases hp : s.is_paused with
  | true => simp [h0, h1, hp] at h
  | false =>
  cases hi : s.initialized with
  | false => simp [h0, h1, hp, hi] at h
  | true =>
  cases hv : validate_lock_items s items items with
  | some e => simp [h0, h1, hp, hi, hv] at h
  | none =>
    refine ⟨by omega, by omega, rfl, rfl, rfl, ?_⟩
    simp [h0, h1, hp, hi, hv]

theorem batch_release_funds_body_ok_spec (s : ContractState) (items : List ReleaseFundsItem)
    (n : Nat) (h : (batch_release_funds_body s items).1 = .ok n) :
    0 < items.length ∧ items.length ≤ MAX_BATCH_SIZE ∧ s.is_paused = false ∧
    s.initialized = true ∧ validate_release_items s items items 0 = none ∧
    batch_release_funds_body s items = batch_release_exec s [] 0 items := by
  unfold batch_release_funds_body at h ⊢
  by_cases h0 : items.length = 0
  · simp [h0] at h
  by_cases h1 : MAX_BATCH_SIZE < items.length
  · simp [h0, h1] at h
  cases hp : s.is_paused with
  | true => simp [h0, h1, hp] at h
  | false =>
  cases hi : s.initialized with
  | false => simp [h0, h1, hp, hi] at h
  | true =>
  cases hv : validate_release_items s items items 0 with
  | some e => simp [h0, h1, hp, hi, hv] at h
  | none =>
    refine ⟨by omega, by omega, rfl, rfl, rfl, ?_⟩
    simp [h0, h1, hp, hi, hv]

theorem batch_lock_exec_guard (l : List LockFundsItem) :
    ∀ (s : ContractState) (tr : List Transfer) (n : Nat),
    ((batch_lock_exec s tr n l).1).reentrancy_guard = s.reentrancy_guard := by
  induction l with
  | nil => intro s tr n; rfl
  | cons x xs ih => intro s tr n; unfold batch_lock_exec; rw [ih]

theorem batch_release_exec_guard (l : List ReleaseFundsItem) :
    ∀ (s : ContractState) (tr : List Transfer) (n : Nat),
    ((batch_release_exec s tr n l).2.1).reentrancy_guard = s.reentrancy_guard := by
  induction l with
  | nil => intro s tr n; rfl
  | cons x xs ih =>
    intro s tr n
    unfold batch_release_exec
    cases he : s.escrows x.bounty_id with
    | none => rfl
    | some e => rw [ih]

theorem hostRun_ok_state {α : Type} (out : CallResult α × ContractState × List Transfer)
    (s : ContractState) (a : α) (h : (hostRun out s).1 = .ok a) :
    (hostRun out s).2.1 = out.2.1 :=
  congrArg Prod.fst (hostRun_ok out s a h).2

theorem hostRun_ok_transfers {α : Type} (out : CallResult α × ContractState × List Transfer)
    (s : ContractState) (a : α) (h : (hostRun out s).1 = .ok a) :
    (hostRun out s).2.2 = out.2.2 :=
  congrArg Prod.snd (hostRun_ok out s a h).2

theorem Step_escrow_cases {s s' : ContractState} (hs : Step s s') (bid : Nat) (e : Escrow)
    (he : s.escrows bid = some e) :
    s'.escrows bid = some e ∨
    s'.escrows bid = some { e with status := .Released, remaining_amount := 0 } ∨
    s'.escrows bid = some { e with status := .Released } ∨
    ((e.status = .Locked ∨ e.status = .PartiallyRefunded) ∧
      ∃ a recip mode now, 0 < a ∧ a ≤ e.remaining_amount ∧
      s'.escrows bid = some { e with
        remaining_amount := e.remaining_amount - a,
        refund_history := e.refund_history ++ [⟨a, recip, mode, now⟩],
        status := if e.remaining_amount - a = 0 then .Refunded
                  else .PartiallyRefunded }) := by
  cases hs with
  | lock now s dep bid' amt dl h =>
    have hb : (lock_funds_body now s dep bid' amt dl).1 = .ok () := (hostRun_ok _ _ _ h).1
    have hss : (lock_funds now s dep bid' amt dl).2.1 =
        (lock_funds_body now s dep bid' amt dl).2.1 := hostRun_ok_state _ _ _ h
    obtain ⟨-, -, -, -, -, hnone, hpost, -⟩ := lock_funds_body_ok_spec now s dep bid' amt dl hb
    left
    rw [hss, hpost]
    by_cases hid : bid = bid'
    · subst hid
      rw [he] at hnone
      cases hnone
    · rw [setMap_other _ _ _ _ hid]
      exact he
  | release s bid' contrib h =>
    have hb : (release_funds_body s bid' contrib).1 = .ok () := (hostRun_ok _ _ _ h).1
    have hss : (release_funds s bid' contrib).2.1 =
        (release_funds_body s bid' contrib).2.1 := hostRun_ok_state _ _ _ h
    obtain ⟨-, -, -, e', he', hst', hpost⟩ := release_funds_body_ok_spec s bid' contrib hb
    by_cases hid : bid = bid'
    · subst hid
      rw [he] at he'
      cases he'
      right; left
      rw [hss, hpost]
      exact setMap_same _ _ _
    · left
      rw [hss, hpost, setMap_other _ _ _ _ hid]
      exact he
  | refundStep now s bid' oamt orec mode h =>
    have hb : (refund_body now s bid' oamt orec mode).1 = .ok () := (hostRun_ok _ _ _ h).1
    have hss : (refund now s bid' oamt orec mode).2.1 =
        (refund_body now s bid' oamt orec mode).2.1 := hostRun_ok_state _ _ _ h
    obtain ⟨-, e', he', hst', a, recip, hpos, hle, -, -, -, -, hpost, -⟩ :=
      refund_body_ok_spec now s bid' oamt orec mode hb
    by_cases hid : bid = bid'
    · subst hid
      rw [he] at he'
      cases he'
      right; right; right
      refine ⟨hst', a, recip, mode, now, hpos, hle, ?_⟩
      rw [hss, hpost]
      exact setMap_same _ _ _
    · left
      rw [hss, hpost, setMap_other _ _ _ _ hid]
      exact he
  | batchLock s items n h =>
    have hb : (batch_lock_funds_body s items).1 = .ok n := (hostRun_ok _ _ _ h).1
    have hss : (batch_lock_funds s items).2.1 =
        (batch_lock_funds_body s items).2.1 := hostRun_ok_state _ _ _ h
    obtain ⟨-, -, -, -, hv, hpost⟩ := batch_lock_funds_body_ok_spec s items n hb
    left
    rw [hss, hpost]
    have hnot : bid ∉ items.map (·.bounty_id) := by
      intro hmem
      obtain ⟨it, hit, hid⟩ := List.mem_map.mp hmem
      have hid' : it.bounty_id = bid := hid
      have hthis := (validate_lock_items_ok s items items hv it hit).1
      rw [hid', he] at hthis
      cases hthis
    rw [batch_lock_exec_not_mem items _ _ _ _ hnot]
    exact he
  | batchRelease s items n h =>
    have hb : (batch_release_funds_body s items).1 = .ok n := (hostRun_ok _ _ _ h).1
    have hss : (batch_release_funds s items).2.1 =
        (batch_release_funds_body s items).2.1 := hostRun_ok_state _ _ _ h
    obtain ⟨-, -, -, -, hv, hpost⟩ := batch_release_funds_body_ok_spec s items n hb
    have hss2 : (batch_release_funds s items).2.1 = (batch_release_exec s [] 0 items).2.1 := by
      rw [hss, hpost]
    rcases batch_release_exec_pointwise items s [] 0 bid with hsame | ⟨e0, he0, hrel⟩
    · left
      rw [hss2, hsame]
      exact he
    · rw [he] at he0
      cases he0
      right; right; left
      rw [hss2]
      exact hrel

theorem sumHistory_append (h : List RefundRecord) (r : RefundRecord) :
    sumHistory (h ++ [r]) = sumHistory h + r.amount := by
  simp [sumHistory]

/-- C1 (amended): for every bounty id and every sequence of successful
lock_funds/release_funds/refund/batch_lock_funds/batch_release_funds
calls starting from the lock that created it with gross (pre-fee) amount
`g`, after each call the escrow record exists and — whenever its status
is not Released — satisfies `sum(refund_history) = g - remaining_amount`.
(The claim's `amount` field is the net post-fee value, and release
zeroes `remaining_amount` without touching the history, so the identity
holds for the gross amount and outside the Released state.) -/
theorem C1_trace_invariant (bid : Nat) (g : Int) (s : ContractState) (h : Trace bid g s) :
    ∃ e, s.escrows bid = some e ∧
      (e.status ≠ .Released → sumHistory e.refund_history = g - e.remaining_amount) := by
  induction h with
  | base_lock now s0 dep dl hok =>
    have hb : (lock_funds_body now s0 dep bid g dl).1 = .ok () := (hostRun_ok _ _ _ hok).1
    have hss : (lock_funds now s0 dep bid g dl).2.1 =
        (lock_funds_body now s0 dep bid g dl).2.1 := hostRun_ok_state _ _ _ hok
    obtain ⟨-, -, -, -, -, -, hpost, -⟩ := lock_funds_body_ok_spec now s0 dep bid g dl hb
    refine ⟨{ depositor := dep, amount := g - lock_fee s0 g, status := .Locked,
              deadline := dl, refund_history := [], remaining_amount := g }, ?_, ?_⟩
    · rw [hss, hpost]
      exact setMap_same _ _ _
    · intro _
      simp [sumHistory]
  | base_batch_lock s0 items it n hmem hid hamt hok =>
    have hb : (batch_lock_funds_body s0 items).1 = .ok n := (hostRun_ok _ _ _ hok).1
    have hss : (batch_lock_funds s0 items).2.1 =
        (batch_lock_funds_body s0 items).2.1 := hostRun_ok_state _ _ _ hok
    obtain ⟨-, -, -, -, hv, hpost⟩ := batch_lock_funds_body_ok_spec s0 items n hb
    have hcount : countId (items.map (·.bounty_id)) it.bounty_id = 1 := by
      have h1 := (validate_lock_items_ok s0 items items hv it hmem).2.2
      have h2' : 1 ≤ countId (items.map (·.bounty_id)) it.bounty_id :=
        countId_pos_of_mem (List.mem_map_of_mem _ hmem)
      omega
    refine ⟨{ depositor := it.depositor, amount := it.amount, status := .Locked,
              deadline := it.deadline, refund_history := [], remaining_amount := it.amount },
            ?_, ?_⟩
    · rw [hss, hpost, ← hid]
      exact batch_lock_exec_unique items _ _ _ it hmem hcount
    · intro _
      simp [sumHistory, hamt]
  | step s0 s1 ht hs ih =>
    obtain ⟨e, he, hinv⟩ := ih
    rcases Step_escrow_cases hs bid e he with
      h1 | h1 | h1 | ⟨hst, a, recip, mode, now, hpos, hle, h1⟩
    · exact ⟨e, h1, hinv⟩
    · exact ⟨_, h1, by intro hne; exact absurd rfl hne⟩
    · exact ⟨_, h1, by intro hne; exact absurd rfl hne⟩
    · refine ⟨_, h1, ?_⟩
      intro _
      have hpre : sumHistory e.refund_history = g - e.remaining_amount := by
        apply hinv
        rcases hst with h' | h' <;> simp [h']
      show sumHistory (e.refund_history ++ [⟨a, recip, mode, now⟩]) = _
      rw [sumHistory_append, hpre]
      show g - e.remaining_amount + a = g - (e.remaining_amount - a)
      ring

/-- C1, counterexample: the claimed identity `amount - remaining_amount =
sum(refund_history)` fails on the stored record.  (a) With a 1% lock fee
enabled, right after `lock_funds(5, 1, 10000, 50)` the record stores
`amount = 9900` (net) and `remaining_amount = 10000` (gross), so
`amount - remaining_amount = -100` while the history sum is 0.  (b) With
fees disabled, after `lock_funds(5, 1, 100, 50)` followed by
`release_funds(1, 6)` the record has `amount = 100`,
`remaining_amount = 0` and an empty history, so the difference is 100,
not 0. -/
theorem C1_counterexample :
    ((lock_funds 0 feeState 5 1 10000 50).1 = .ok () ∧
      (lock_funds 0 feeState 5 1 10000 50).2.1.escrows 1 =
        some ⟨5, 9900, .Locked, 50, [], 10000⟩ ∧
      ¬((9900 : Int) - 10000 = sumHistory [])) ∧
    ((release_funds lockedState 1 6).1 = .ok () ∧
      (release_funds lockedState 1 6).2.1.escrows 1 =
        some ⟨5, 100, .Released, 50, [], 0⟩ ∧
      ¬((100 : Int) - 0 = sumHistory [])) := by
  refine ⟨⟨?_, ?_, ?_⟩, ⟨?_, ?_, ?_⟩⟩ <;> decide

/-- C1 witness: the amended invariant evaluated on a concrete trace —
lock 100 for bounty 1, then refund 30 after the deadline. -/
theorem C1_witness :
    ∃ e, (refund 60 lockedState 1 (some 30) none .Partial).2.1.escrows 1 = some e ∧
      (e.status ≠ .Released → sumHistory e.refund_history = 100 - e.remaining_amount) :=
  C1_trace_invariant 1 100 _
    (Trace.step _ _ (Trace.base_lock 0 baseState 5 50 (by decide))
      (Step.refundStep 60 lockedState 1 (some 30) none .Partial (by decide)))

/-- C2: once an escrow's status is Released or Refunded, any
`release_funds` or `refund` call on that id fails with `FundsNotLocked`
(under the ambient conditions a live call sees: contract initialized,
not paused, no reentrancy flag), and — unconditionally — the stored
escrow record is left exactly as it was: terminal states have no
outgoing transitions. -/
theorem C2_terminal_states (now : Nat) (s : ContractState) (bounty_id : Nat) (e : Escrow)
    (contributor : Nat) (oamt : Option Int) (orec : Option Nat) (mode : RefundMode)
    (he : s.escrows bounty_id = some e)
    (hterm : e.status = .Released ∨ e.status = .Refunded) :
    (s.initialized = true → s.is_paused = false → s.reentrancy_guard = false →
      (release_funds s bounty_id contributor).1 = .err .FundsNotLocked ∧
      (refund now s bounty_id oamt orec mode).1 = .err .FundsNotLocked) ∧
    (release_funds s bounty_id contributor).2.1.escrows bounty_id = some e ∧
    (refund now s bounty_id oamt orec mode).2.1.escrows bounty_id = some e := by
  have hnl : e.status ≠ EscrowStatus.Locked := by
    rcases hterm with h | h <;> simp [h]
  have hnp : e.status ≠ EscrowStatus.PartiallyRefunded := by
    rcases hterm with h | h <;> simp [h]
  refine ⟨?_, ?_, ?_⟩
  · intro hi hp hg
    constructor
    · show (hostRun (release_funds_body s bounty_id contributor) s).1 = _
      simp [release_funds_body, hostRun, hi, hp, hg, he, hnl]
    · show (hostRun (refund_body now s bounty_id oamt orec mode) s).1 = _
      simp [refund_body, refund_mode_dispatch, hostRun, hp, he, hnl, hnp]
  · cases hr : (release_funds s bounty_id contributor).1 with
    | ok a =>
      have hb : (release_funds_body s bounty_id contributor).1 = .ok a :=
        (hostRun_ok _ _ _ hr).1
      obtain ⟨-, -, -, e', he', hst', -⟩ := release_funds_body_ok_spec s bounty_id contributor hb
      rw [he] at he'
      cases he'
      exact absurd hst' hnl
    | err err =>
      have := hostRun_err (release_funds_body s bounty_id contributor) s err hr
      show (hostRun (release_funds_body s bounty_id contributor) s).2.1.escrows bounty_id = _
      rw [this]
      exact he
    | panicked =>
      have := hostRun_panicked (release_funds_body s bounty_id contributor) s hr
      show (hostRun (release_funds_body s bounty_id contributor) s).2.1.escrows bounty_id = _
      rw [this]
      exact he
  · cases hr : (refund now s bounty_id oamt orec mode).1 with
    | ok a =>
      have hb : (refund_body now s bounty_id oamt orec mode).1 = .ok a :=
        (hostRun_ok _ _ _ hr).1
      obtain ⟨-, e', he', hst', -⟩ := refund_body_ok_spec now s bounty_id oamt orec mode hb
      rw [he] at he'
      cases he'
      rcases hst' with h' | h'
      · exact absurd h' hnl
      · exact absurd h' hnp
    | err err =>
      have := hostRun_err (refund_body now s bounty_id oamt orec mode) s err hr
      show (hostRun (refund_body now s bounty_id oamt orec mode) s).2.1.escrows bounty_id = _
      rw [this]
      exact he
    | panicked =>
      have := hostRun_panicked (refund_body now s bounty_id oamt orec mode) s hr
      show (hostRun (refund_body now s bounty_id oamt orec mode) s).2.1.escrows bounty_id = _
      rw [this]
      exact he

/-- C2 witness: on the concrete Released escrow of `releasedState`, both
calls return `FundsNotLocked` and the record survives unchanged. -/
theorem C2_witness :
    (release_funds releasedState 1 7).1 = .err .FundsNotLocked ∧
    (refund 60 releasedState 1 none none .Full).1 = .err .FundsNotLocked ∧
    (refund 60 releasedState 1 none none .Full).2.1.escrows 1 =
      some ⟨5, 100, .Released, 50, [], 0⟩ := by
  have h := C2_terminal_states 60 releasedState 1 ⟨5, 100, .Released, 50, [], 0⟩ 7
    none none .Full (by decide) (Or.inl rfl)
  exact ⟨(h.1 (by decide) (by decide) (by decide)).1,
         (h.1 (by decide) (by decide) (by decide)).2, h.2.2⟩

theorem refund_mode_dispatch_no_panic (now : Nat) (s : ContractState) (bid : Nat)
    (oamt : Option Int) (orec : Option Nat) (mode : RefundMode) (escrow : Escrow)
    (s1 : ContractState)
    (h : refund_mode_dispatch now s bid oamt orec mode escrow = (.panicked, s1)) : False := by
  unfold refund_mode_dispatch at h
  cases mode with
  | Full => by_cases hb : now < escrow.deadline <;> simp [hb] at h
  | Partial => by_cases hb : now < escrow.deadline <;> simp [hb] at h
  | Custom =>
    cases oamt with
    | none => simp at h
    | some amt =>
      cases orec with
      | none => simp at h
      | some rec =>
        by_cases hb : now < escrow.deadline
        · cases happ : s.approvals bid with
          | none => simp [hb, happ] at h
          | some appr =>
            by_cases hm : appr.amount ≠ amt ∨ appr.recipient ≠ rec ∨
                appr.mode ≠ RefundMode.Custom
            · simp [hb, happ, hm] at h
            · simp [hb, happ, hm] at h
        · simp [hb] at h

theorem refund_mode_dispatch_guard (now : Nat) (s : ContractState) (bid : Nat)
    (oamt : Option Int) (orec : Option Nat) (mode : RefundMode) (escrow : Escrow)
    (r : CallResult (Int × Nat)) (s1 : ContractState)
    (h : refund_mode_dispatch now s bid oamt orec mode escrow = (r, s1)) :
    s1.reentrancy_guard = s.reentrancy_guard := by
  unfold refund_mode_dispatch at h
  cases mode with
  | Full =>
    by_cases hb : now < escrow.deadline <;> simp [hb] at h <;> rw [← h.2]
  | Partial =>
    by_cases hb : now < escrow.deadline <;> simp [hb] at h <;> rw [← h.2]
  | Custom =>
    cases oamt with
    | none => simp at h; rw [← h.2]
    | some amt =>
      cases orec with
      | none => simp at h; rw [← h.2]
      | some rec =>
        by_cases hb : now < escrow.deadline
        · cases happ : s.approvals bid with
          | none => simp [hb, happ] at h; rw [← h.2]
          | some appr =>
            by_cases hm : appr.amount ≠ amt ∨ appr.recipient ≠ rec ∨
                appr.mode ≠ RefundMode.Custom
            · simp [hb, happ, hm] at h
              rw [← h.2]
            · simp [hb, happ, hm] at h
              rw [← h.2]
        · simp [hb] at h
          rw [← h.2]


/-- C3, counterexample: with the transient flag already set at entry
(`lockedGuardState.reentrancy_guard = true`), a `refund` call and a
`batch_lock_funds` call both run to successful completion instead of
aborting — the source sets and checks the flag only in `lock_funds` and
`release_funds`. -/
theorem C3_counterexample :
    lockedGuardState.reentrancy_guard = true ∧
    (refund 60 lockedGuardState 1 none none .Full).1 = .ok () ∧
    (batch_lock_funds lockedGuardState [⟨2, 5, 40, 99⟩]).1 = .ok 1 := by
  refine ⟨?_, ?_, ?_⟩ <;> decide

/-- C3 (amended): only `lock_funds` and `release_funds` implement the
reentrancy guard — each aborts if the flag is set at entry (for
`lock_funds`, after its pause check) and leaves the flag clear on every
non-aborting exit.  `refund` never sets or checks the flag (it can only
clear it), and the two batch entry points never touch it; none of the
three aborts on a set flag. -/
theorem C3_guard_discipline (now : Nat) (s : ContractState) (dep bid contrib : Nat)
    (amt : Int) (dl : Nat) (oamt : Option Int) (orec : Option Nat) (mode : RefundMode)
    (litems : List LockFundsItem) (ritems : List ReleaseFundsItem) :
    (s.is_paused = false → s.reentrancy_guard = true →
      (lock_funds_body now s dep bid amt dl).1 = .panicked) ∧
    (s.reentrancy_guard = true → (release_funds_body s bid contrib).1 = .panicked) ∧
    (s.reentrancy_guard = false →
      ((lock_funds_body now s dep bid amt dl).2.1).reentrancy_guard = false) ∧
    (s.reentrancy_guard = false →
      ((release_funds_body s bid contrib).2.1).reentrancy_guard = false) ∧
    ((refund_body now s bid oamt orec mode).1 ≠ .panicked) ∧
    (((refund_body now s bid oamt orec mode).2.1).reentrancy_guard = true →
      s.reentrancy_guard = true) ∧
    ((batch_lock_funds_body s litems).1 ≠ .panicked) ∧
    (((batch_lock_funds_body s litems).2.1).reentrancy_guard = s.reentrancy_guard) ∧
    ((batch_release_funds_body s ritems).2.1).reentrancy_guard = s.reentrancy_guard := by
  refine ⟨?_, ?_, ?_, ?_, ?_, ?_, ?_, ?_, ?_⟩
  · intro hp hg
    simp [lock_funds_body, hp, hg]
  · intro hg
    simp [release_funds_body, hg]
  · intro hg
    unfold lock_funds_body
    repeat' split
    all_goals try exact hg
    all_goals try rfl
    all_goals (simp only []; repeat' split) <;> rfl
  · intro hg
    unfold release_funds_body
    repeat' split
    all_goals try exact hg
    all_goals (simp only []; repeat' split) <;> rfl
  · cases hp : s.is_paused with
    | true => simp [refund_body, hp]
    | false =>
      cases he : s.escrows bid with
      | none => simp [refund_body, hp, he]
      | some e =>
        by_cases hst : e.status ≠ EscrowStatus.Locked ∧ e.status ≠ EscrowStatus.PartiallyRefunded
        · simp [refund_body, hp, he, hst]
        · rcases hE : refund_mode_dispatch now s bid oamt orec mode e with ⟨r, s1⟩
          cases r with
          | err err => simp [refund_body, hp, he, hst, hE]
          | panicked => exact absurd hE (fun hh =>
              refund_mode_dispatch_no_panic now s bid oamt orec mode e s1 hh)
          | ok pr =>
            rcases pr with ⟨a, recp⟩
            by_cases hv : a ≤ 0 ∨ e.remaining_amount < a
            · simp [refund_body, hp, he, hst, hE, hv]
            · by_cases hbal : s1.balance < a
              · simp [refund_body, hp, he, hst, hE, hv, hbal]
              · simp [refund_body, hp, he, hst, hE, hv, hbal]
  · cases hp : s.is_paused with
    | true =>
      simp [refund_body, hp]
    | false =>
      cases he : s.escrows bid with
      | none => simp [refund_body, hp, he, clearGuard]
      | some e =>
        by_cases hst : e.status ≠ EscrowStatus.Locked ∧ e.status ≠ EscrowStatus.PartiallyRefunded
        · simp [refund_body, hp, he, hst]
        · rcases hE : refund_mode_dispatch now s bid oamt orec mode e with ⟨r, s1⟩
          have hg1 : s1.reentrancy_guard = s.reentrancy_guard :=
            refund_mode_dispatch_guard now s bid oamt orec mode e r s1 hE
          cases r with
          | err err =>
            simp [refund_body, hp, he, hst, hE]
            intro hg
            rw [← hg1]
            exact hg
          | panicked =>
            simp [refund_body, hp, he, hst, hE]
            intro hg
            rw [← hg1]
            exact hg
          | ok pr =>
            rcases pr with ⟨a, recp⟩
            by_cases hv : a ≤ 0 ∨ e.remaining_amount < a
            · simp [refund_body, hp, he, hst, hE, hv]
              intro hg
              rw [← hg1]
              exact hg
            · by_cases hbal : s1.balance < a
              · simp [refund_body, hp, he, hst, hE, hv, hbal]
                intro hg
                rw [← hg1]
                exact hg
              · simp [refund_body, hp, he, hst, hE, hv, hbal]
  · unfold batch_lock_funds_body
    repeat' split <;> simp_all
  · unfold batch_lock_funds_body
    repeat' split <;> simp_all [batch_lock_exec_guard]
  · unfold batch_release_funds_body
    repeat' split <;> simp_all [batch_release_exec_guard]

/-- C3 witness: the guard discipline of the amended claim at concrete
inputs — a nested `lock_funds` aborts on the set flag, and a `refund`
with the flag clear leaves it clear. -/
theorem C3_witness :
    (lock_funds_body 0 lockedGuardState 5 2 40 99).1 = .panicked ∧
    ((refund_body 60 lockedState 1 none none .Full).2.1).reentrancy_guard = false := by
  have h1 := (C3_guard_discipline 0 lockedGuardState 5 2 7 40 99 none none .Full [] []).1
    (by decide) (by decide)
  have h2 := (C3_guard_discipline 60 lockedState 1 1 7 40 99 none none .Full [] []).2.2.2.2.2.1
  refine ⟨h1, ?_⟩
  cases hg : ((refund_body 60 lockedState 1 none none .Full).2.1).reentrancy_guard with
  | false => rfl
  | true => exact absurd (h2 hg) (by decide)

theorem removeMap_same {α : Type} (f : Nat → Option α) (k : Nat) :
    removeMap f k k = none := by simp [removeMap]

/-- C4: every successful `lock_funds` creates the escrow record with
status Locked, empty refund history, `amount` equal to the net (post
lock-fee) value, `remaining_amount` equal to the gross input amount, and
transfers the net amount to custody plus — when positive — the fee to
the configured recipient, in the same call. -/
theorem C4_lock_funds_creates (now : Nat) (s : ContractState) (dep bid : Nat) (amt : Int)
    (dl : Nat) (h : (lock_funds now s dep bid amt dl).1 = .ok ()) :
    (lock_funds now s dep bid amt dl).2.1.escrows bid =
      some { depositor := dep, amount := amt - lock_fee s amt, status := .Locked,
             deadline := dl, refund_history := [], remaining_amount := amt } ∧
    (lock_funds now s dep bid amt dl).2.2 =
      ⟨dep, contractAddr, amt - lock_fee s amt⟩ ::
        (if 0 < lock_fee s amt then
          [⟨dep, (get_fee_config_internal s).fee_recipient, lock_fee s amt⟩] else []) := by
  have hb : (lock_funds_body now s dep bid amt dl).1 = .ok () := (hostRun_ok _ _ _ h).1
  have hss : (lock_funds now s dep bid amt dl).2.1 =
      (lock_funds_body now s dep bid amt dl).2.1 := hostRun_ok_state _ _ _ h
  have htr : (lock_funds now s dep bid amt dl).2.2 =
      (lock_funds_body now s dep bid amt dl).2.2 := hostRun_ok_transfers _ _ _ h
  obtain ⟨-, -, -, -, -, -, hpost, htr2⟩ := lock_funds_body_ok_spec now s dep bid amt dl hb
  constructor
  · rw [hss, hpost]
    exact setMap_same _ _ _
  · rw [htr, htr2]

/-- C4 witness: locking 10000 with a 1% lock fee enabled — the record
stores net 9900 against gross 10000, and both transfers happen. -/
theorem C4_witness :
    (lock_funds 0 feeState 5 1 10000 50).2.1.escrows 1 =
      some { depositor := 5, amount := 10000 - lock_fee feeState 10000, status := .Locked,
             deadline := 50, refund_history := [], remaining_amount := 10000 } ∧
    (lock_funds 0 feeState 5 1 10000 50).2.2 =
      ⟨5, contractAddr, 10000 - lock_fee feeState 10000⟩ ::
        (if 0 < lock_fee feeState 10000 then
          [⟨5, (get_fee_config_internal feeState).fee_recipient, lock_fee feeState 10000⟩]
         else []) :=
  C4_lock_funds_creates 0 feeState 5 1 10000 50 (by decide)

/-- C5, counterexample: `batch_release_funds` of the Locked escrow
(amount 100, remaining 100) succeeds, sets status Released, but leaves
`remaining_amount` at 100 instead of zeroing it. -/
theorem C5_counterexample :
    (batch_release_funds lockedState [⟨1, 6⟩]).1 = .ok 1 ∧
    (batch_release_funds lockedState [⟨1, 6⟩]).2.1.escrows 1 =
      some ⟨5, 100, .Released, 50, [], 100⟩ ∧
    ¬((100 : Int) = 0) := by
  refine ⟨?_, ?_, ?_⟩ <;> decide

/-- C5 (amended): every successful `release_funds` sets the escrow's
status to Released and zeroes `remaining_amount`; every item processed
by a successful `batch_release_funds` gets status Released but keeps its
previous `remaining_amount` unchanged. -/
theorem C5_release_status (s : ContractState) (bid contrib : Nat)
    (items : List ReleaseFundsItem) (n : Nat) :
    ((release_funds s bid contrib).1 = .ok () →
      ∃ e, s.escrows bid = some e ∧
        (release_funds s bid contrib).2.1.escrows bid =
          some { e with status := .Released, remaining_amount := 0 }) ∧
    ((batch_release_funds s items).1 = .ok n →
      ∀ it ∈ items, ∃ e, s.escrows it.bounty_id = some e ∧
        (batch_release_funds s items).2.1.escrows it.bounty_id =
          some { e with status := .Released }) := by
  constructor
  · intro h
    have hb : (release_funds_body s bid contrib).1 = .ok () := (hostRun_ok _ _ _ h).1
    have hss : (release_funds s bid contrib).2.1 =
        (release_funds_body s bid contrib).2.1 := hostRun_ok_state _ _ _ h
    obtain ⟨-, -, -, e, he, hst, hpost⟩ := release_funds_body_ok_spec s bid contrib hb
    refine ⟨e, he, ?_⟩
    rw [hss, hpost]
    exact setMap_same _ _ _
  · intro h it hit
    have hb : (batch_release_funds_body s items).1 = .ok n := (hostRun_ok _ _ _ h).1
    have hss : (batch_release_funds s items).2.1 =
        (batch_release_funds_body s items).2.1 := hostRun_ok_state _ _ _ h
    obtain ⟨-, -, -, -, hv, hpost⟩ := batch_release_funds_body_ok_spec s items n hb
    obtain ⟨e, he, hstat, hcle⟩ := validate_release_items_ok s items items 0 hv it hit
    have hcnt : countId (items.map (·.bounty_id)) it.bounty_id = 1 := by
      have h2' : 1 ≤ countId (items.map (·.bounty_id)) it.bounty_id :=
        countId_pos_of_mem (List.mem_map_of_mem _ hit)
      omega
    have hexec1 : (batch_release_exec s [] 0 items).1 = .ok n := by
      rw [← hpost]
      exact hb
    refine ⟨e, he, ?_⟩
    rw [hss, show (batch_release_funds_body s items).2.1 =
        (batch_release_exec s [] 0 items).2.1 from by rw [hpost]]
    exact batch_release_exec_item items _ _ _ it e n hit hcnt he hexec1

/-- C5 witness: the two effects at concrete inputs — single release
zeroes the remainder, batch release keeps it. -/
theorem C5_witness :
    (∃ e, lockedState.escrows 1 = some e ∧
      (release_funds lockedState 1 6).2.1.escrows 1 =
        some { e with status := .Released, remaining_amount := 0 }) ∧
    (∃ e, lockedState.escrows 1 = some e ∧
      (batch_release_funds lockedState [⟨1, 6⟩]).2.1.escrows 1 =
        some { e with status := .Released }) := by
  constructor
  · exact (C5_release_status lockedState 1 6 [⟨1, 6⟩] 1).1 (by decide)
  · exact (C5_release_status lockedState 1 6 [⟨1, 6⟩] 1).2 (by decide) ⟨1, 6⟩ (by simp)

/-- C6, counterexample: at the deadline (`now = 50 = deadline`), a
Partial refund requesting amount 0 — which is at most the remaining 100
— fails with `InvalidAmount` instead of succeeding as claimed. -/
theorem C6_counterexample :
    lockedState.escrows 1 = some ⟨5, 100, .Locked, 50, [], 100⟩ ∧
    ((0 : Int) ≤ 100) ∧
    (refund 50 lockedState 1 (some 0) none .Partial).1 = .err .InvalidAmount := by
  refine ⟨?_, ?_, ?_⟩ <;> decide

/-- C6 (amended): for an escrow in Locked or PartiallyRefunded status
(contract not paused), a Full or Partial refund strictly before the
deadline fails with `DeadlineNotPassed` leaving the state untouched; at
or after the deadline it succeeds provided the effective amount is
positive, at most `remaining_amount`, and covered by the contract
balance — decrementing `remaining_amount` and setting status Refunded
when it reaches 0, PartiallyRefunded otherwise. -/
theorem C6_deadline_gating (now : Nat) (s : ContractState) (bid : Nat) (e : Escrow)
    (oamt : Option Int) (orec : Option Nat) (mode : RefundMode)
    (hp : s.is_paused = false) (he : s.escrows bid = some e)
    (hst : e.status = .Locked ∨ e.status = .PartiallyRefunded)
    (hmode : mode = .Full ∨ mode = .Partial) :
    (now < e.deadline →
      (refund now s bid oamt orec mode).1 = .err .DeadlineNotPassed ∧
      (refund now s bid oamt orec mode).2.1 = s) ∧
    (e.deadline ≤ now →
      ∀ a : Int,
      a = (if mode = .Full then e.remaining_amount else oamt.getD e.remaining_amount) →
      0 < a → a ≤ e.remaining_amount → a ≤ s.balance →
      (refund now s bid oamt orec mode).1 = .ok () ∧
      (refund now s bid oamt orec mode).2.1.escrows bid =
        some { e with remaining_amount := e.remaining_amount - a,
                      refund_history := e.refund_history ++ [⟨a, e.depositor, mode, now⟩],
                      status := if e.remaining_amount - a = 0 then .Refunded
                                else .PartiallyRefunded }) := by
  have hstn : ¬(e.status ≠ EscrowStatus.Locked ∧ e.status ≠ EscrowStatus.PartiallyRefunded) := by
    tauto
  constructor
  · intro hb
    rcases hmode with hm | hm <;> subst hm <;>
      exact ⟨by simp [refund, refund_body, refund_mode_dispatch, hostRun, hp, he, hstn, hb],
             by simp [refund, refund_body, refund_mode_dispatch, hostRun, hp, he, hstn, hb]⟩
  · intro hdl a ha hpos hle hbal
    have hb : ¬(now < e.deadline) := by omega
    rcases hmode with hm | hm <;> subst hm
    · have ha' : a = e.remaining_amount := by simpa using ha
      subst ha'
      have hv1 : ¬(e.remaining_amount ≤ 0) := by omega
      have hbal' : ¬(s.balance < e.remaining_amount) := by omega
      constructor
      · simp [refund, refund_body, refund_mode_dispatch, hostRun, hp, he, hstn, hb, hv1, hbal']
      · simp [refund, refund_body, refund_mode_dispatch, hostRun, hp, he, hstn, hb, hv1, hbal',
          setMap_same]
    · have ha' : a = oamt.getD e.remaining_amount := by simpa using ha
      subst ha'
      have hv1 : ¬(oamt.getD e.remaining_amount ≤ 0) := by omega
      have hv2 : ¬(e.remaining_amount < oamt.getD e.remaining_amount) := by omega
      have hbal' : ¬(s.balance < oamt.getD e.remaining_amount) := by omega
      constructor
      · simp [refund, refund_body, refund_mode_dispatch, hostRun, hp, he, hstn, hb, hv1, hv2,
          hbal']
      · simp [refund, refund_body, refund_mode_dispatch, hostRun, hp, he, hstn, hb, hv1, hv2,
          hbal', setMap_same]

/-- C6 witness: the amended behaviour at concrete inputs — at `now = 45`
(before deadline 50) a Full refund fails with `DeadlineNotPassed`; at
`now = 50` a Partial refund of 30 succeeds, leaving remaining 70 and
status PartiallyRefunded. -/
theorem C6_witness :
    (refund 45 lockedState 1 none none .Full).1 = .err .DeadlineNotPassed ∧
    (refund 50 lockedState 1 (some 30) none .Partial).1 = .ok () ∧
    (refund 50 lockedState 1 (some 30) none .Partial).2.1.escrows 1 =
      some ⟨5, 100, .PartiallyRefunded, 50, [⟨30, 5, .Partial, 50⟩], 70⟩ := by
  have h1 := (C6_deadline_gating 45 lockedState 1 ⟨5, 100, .Locked, 50, [], 100⟩ none none
    .Full (by decide) (by decide) (Or.inl rfl) (Or.inl rfl)).1 (by decide)
  have h2 := (C6_deadline_gating 50 lockedState 1 ⟨5, 100, .Locked, 50, [], 100⟩ (some 30) none
    .Partial (by decide) (by decide) (Or.inl rfl) (Or.inr rfl)).2 (by decide) 30 (by decide)
    (by decide) (by decide) (by decide)
  exact ⟨h1.1, h2.1, h2.2⟩

theorem refund_body_custom_consumes (now : Nat) (s : ContractState) (bid : Nat)
    (amt : Int) (rec : Nat) (e : Escrow) (he : s.escrows bid = some e)
    (hb : now < e.deadline)
    (h : (refund_body now s bid (some amt) (some rec) .Custom).1 = .ok ()) :
    ∃ appr, s.approvals bid = some appr ∧ appr.amount = amt ∧ appr.recipient = rec ∧
      appr.mode = .Custom ∧
      (refund_body now s bid (some amt) (some rec) .Custom).2.1.approvals =
        removeMap s.approvals bid := by
  cases hp : s.is_paused with
  | true => simp [refund_body, hp] at h
  | false =>
  by_cases hst : e.status ≠ EscrowStatus.Locked ∧ e.status ≠ EscrowStatus.PartiallyRefunded
  · simp [refund_body, hp, he, hst] at h
  cases happ : s.approvals bid with
  | none => simp [refund_body, refund_mode_dispatch, hp, he, hst, hb, happ] at h
  | some appr =>
  by_cases hm : appr.amount ≠ amt ∨ appr.recipient ≠ rec ∨ appr.mode ≠ RefundMode.Custom
  · simp [refund_body, refund_mode_dispatch, hp, he, hst, hb, happ, hm] at h
  push_neg at hm
  by_cases hv1 : amt ≤ 0
  · simp [refund_body, refund_mode_dispatch, hp, he, hst, hb, happ, hm, hv1] at h
  by_cases hv2 : e.remaining_amount < amt
  · simp [refund_body, refund_mode_dispatch, hp, he, hst, hb, happ, hm, hv1, hv2] at h
  by_cases hbal : s.balance < amt
  · simp [refund_body, refund_mode_dispatch, hp, he, hst, hb, happ, hm, hv1, hv2, hbal] at h
  refine ⟨appr, rfl, hm.1, hm.2.1, hm.2.2, ?_⟩
  simp [refund_body, refund_mode_dispatch, hp, he, hst, hb, happ, hm, hv1, hv2, hbal]

/-- C7: a Custom refund strictly before the deadline succeeds only when
a stored approval exactly matches the requested amount, recipient and
mode, and the approval is deleted by the successful call; with no live
approval (as after one has been consumed), a Custom refund before the
deadline fails with `RefundNotApproved`. -/
theorem C7_custom_approval_single_use (now : Nat) (s : ContractState) (bid : Nat)
    (amt : Int) (rec : Nat) (e : Escrow)
    (he : s.escrows bid = some e) (hbefore : now < e.deadline) :
    ((refund now s bid (some amt) (some rec) .Custom).1 = .ok () →
      ∃ appr, s.approvals bid = some appr ∧ appr.amount = amt ∧ appr.recipient = rec ∧
        appr.mode = .Custom ∧
        (refund now s bid (some amt) (some rec) .Custom).2.1.approvals bid = none) ∧
    (s.approvals bid = none → s.is_paused = false →
      (e.status = .Locked ∨ e.status = .PartiallyRefunded) →
      (refund now s bid (some amt) (some rec) .Custom).1 = .err .RefundNotApproved) := by
  constructor
  · intro h
    have hb : (refund_body now s bid (some amt) (some rec) .Custom).1 = .ok () :=
      (hostRun_ok _ _ _ h).1
    have hss : (refund now s bid (some amt) (some rec) .Custom).2.1 =
        (refund_body now s bid (some amt) (some rec) .Custom).2.1 := hostRun_ok_state _ _ _ h
    obtain ⟨appr, happ, h1, h2, h3, hpost⟩ :=
      refund_body_custom_consumes now s bid amt rec e he hbefore hb
    refine ⟨appr, happ, h1, h2, h3, ?_⟩
    rw [hss, hpost]
    exact removeMap_same _ _
  · intro hnoapp hp hst
    have hstn : ¬(e.status ≠ EscrowStatus.Locked ∧ e.status ≠ EscrowStatus.PartiallyRefunded) := by
      tauto
    simp [refund, refund_body, refund_mode_dispatch, hostRun, hp, he, hstn, hbefore, hnoapp]

/-- C7 witness: approve a Custom refund of 30 to address 8, execute it
before the deadline — the approval is consumed — then observe the second
identical request fail with `RefundNotApproved`. -/
theorem C7_witness :
    (∃ appr, approvedState.approvals 1 = some appr ∧ appr.amount = 30 ∧ appr.recipient = 8 ∧
      appr.mode = .Custom ∧
      (refund 20 approvedState 1 (some 30) (some 8) .Custom).2.1.approvals 1 = none) ∧
    (refund 25 consumedState 1 (some 30) (some 8) .Custom).1 = .err .RefundNotApproved := by
  constructor
  · exact (C7_custom_approval_single_use 20 approvedState 1 30 8
      ⟨5, 100, .Locked, 50, [], 100⟩ (by decide) (by decide)).1 (by decide)
  · exact (C7_custom_approval_single_use 25 consumedState 1 30 8
      ⟨5, 100, .PartiallyRefunded, 50, [⟨30, 8, .Custom, 20⟩], 70⟩ (by decide) (by decide)).2
      (by decide) (by decide) (Or.inr rfl)

/-- C8: every modelled entry point, when it returns an error, leaves the
entire contract state — in particular all escrow records, refund
approvals and the fee configuration — exactly as it was: the host
discards the failed invocation's writes.  (The interesting case is a
Custom refund whose in-body approval removal precedes a failed
validation; the rollback restores the approval.) -/
theorem C8_error_rollback (now : Nat) (s : ContractState) (adm dep bid contrib recp : Nat)
    (amt : Int) (dl : Nat) (oamt olr orr : Option Int) (orec : Option Nat) (ofr : Option Nat)
    (mode : RefundMode) (ofe : Option Bool) (litems : List LockFundsItem)
    (ritems : List ReleaseFundsItem) (err : Error) :
    ((init s adm).1 = .err err → (init s adm).2.1 = s) ∧
    ((update_fee_config s olr orr ofr ofe).1 = .err err →
      (update_fee_config s olr orr ofr ofe).2.1 = s) ∧
    ((pause s).1 = .err err → (pause s).2.1 = s) ∧
    ((unpause s).1 = .err err → (unpause s).2.1 = s) ∧
    ((emergency_withdraw s recp).1 = .err err → (emergency_withdraw s recp).2.1 = s) ∧
    ((lock_funds now s dep bid amt dl).1 = .err err →
      (lock_funds now s dep bid amt dl).2.1 = s) ∧
    ((release_funds s bid contrib).1 = .err err → (release_funds s bid contrib).2.1 = s) ∧
    ((approve_refund now s bid amt recp mode).1 = .err err →
      (approve_refund now s bid amt recp mode).2.1 = s) ∧
    ((refund now s bid oamt orec mode).1 = .err err →
      (refund now s bid oamt orec mode).2.1 = s) ∧
    ((batch_lock_funds s litems).1 = .err err → (batch_lock_funds s litems).2.1 = s) ∧
    ((batch_release_funds s ritems).1 = .err err → (batch_release_funds s ritems).2.1 = s) := by
  refine ⟨?_, ?_, ?_, ?_, ?_, ?_, ?_, ?_, ?_, ?_, ?_⟩ <;>
    exact fun h => hostRun_err _ _ _ h

/-- C8 witness: a Custom refund whose matching approval is consumed
in-body but which then fails the balance check — the observed post
state, approval included, is the pre-call state. -/
theorem C8_witness :
    (refund 20 lowBalanceState 1 (some 30) (some 8) .Custom).1 = .err .InsufficientFunds ∧
    (refund 20 lowBalanceState 1 (some 30) (some 8) .Custom).2.1 = lowBalanceState := by
  constructor
  · decide
  · exact (C8_error_rollback 20 lowBalanceState 0 0 1 0 8 30 0 (some 30) none none (some 8)
      none .Custom none [] [] .InsufficientFunds).2.2.2.2.2.2.2.2.1 (by decide)

/-- C9: the failing input.  At ledger time 10 a single-item batch with
deadline 5 — not in the future — passes `batch_lock_funds` validation
(which checks existence, amount positivity and in-batch duplicates but
never the deadline; the function does not read the clock at all), so the
transfer happens and the escrow is created with the stale deadline.  The
claim, and the repository's own test
`test_invalid_batch_lock_with_past_deadline`, require this call to fail
with zero escrows created. -/
theorem C9_stale_deadline_accepted :
    (batch_lock_funds baseState [⟨1, 5, 1000, 5⟩]).1 = .ok 1 ∧
    (batch_lock_funds baseState [⟨1, 5, 1000, 5⟩]).2.1.escrows 1 =
      some ⟨5, 1000, .Locked, 5, [], 1000⟩ ∧
    (batch_lock_funds baseState [⟨1, 5, 1000, 5⟩]).2.2 = [⟨5, contractAddr, 1000⟩] := by
  refine ⟨?_, ?_, ?_⟩ <;> decide

theorem refund_mode_dispatch_err_set (now : Nat) (s : ContractState) (bid : Nat)
    (oamt : Option Int) (orec : Option Nat) (mode : RefundMode) (escrow : Escrow)
    (err : Error) (s1 : ContractState)
    (h : refund_mode_dispatch now s bid oamt orec mode escrow = (.err err, s1)) :
    err = .DeadlineNotPassed ∨ err = .InvalidAmount ∨ err = .RefundNotApproved := by
  unfold refund_mode_dispatch at h
  cases mode with
  | Full =>
    by_cases hb : now < escrow.deadline <;> simp [hb] at h
    tauto
  | Partial =>
    by_cases hb : now < escrow.deadline <;> simp [hb] at h
    tauto
  | Custom =>
    cases oamt with
    | none => simp at h; tauto
    | some amt =>
      cases orec with
      | none => simp at h; tauto
      | some rec =>
        by_cases hb : now < escrow.deadline
        · cases happ : s.approvals bid with
          | none => simp [hb, happ] at h; tauto
          | some appr =>
            by_cases hm : appr.amount ≠ amt ∨ appr.recipient ≠ rec ∨
                appr.mode ≠ RefundMode.Custom
            · simp [hb, happ, hm] at h
              tauto
            · simp [hb, happ, hm] at h
        · simp [hb] at h

theorem refund_body_err_set (now : Nat) (s : ContractState) (bid : Nat)
    (oamt : Option Int) (orec : Option Nat) (mode : RefundMode) (err : Error)
    (h : (refund_body now s bid oamt orec mode).1 = .err err) :
    err ≠ .Unauthorized := by
  cases hp : s.is_paused with
  | true =>
    simp [refund_body, hp] at h
    subst h
    decide
  | false =>
  cases he : s.escrows bid with
  | none =>
    simp [refund_body, hp, he] at h
    subst h
    decide
  | some e =>
  by_cases hst : e.status ≠ EscrowStatus.Locked ∧ e.status ≠ EscrowStatus.PartiallyRefunded
  · simp [refund_body, hp, he, hst] at h
    subst h
    decide
  · rcases hE : refund_mode_dispatch now s bid oamt orec mode e with ⟨r, s1⟩
    cases r with
    | err err2 =>
      simp [refund_body, hp, he, hst, hE] at h
      subst h
      rcases refund_mode_dispatch_err_set now s bid oamt orec mode e err2 s1 hE with
        h1 | h1 | h1 <;> (subst h1; decide)
    | panicked =>
      exact absurd hE (fun hh => refund_mode_dispatch_no_panic now s bid oamt orec mode e s1 hh)
    | ok pr =>
      rcases pr with ⟨a, recp⟩
      by_cases hv : a ≤ 0 ∨ e.remaining_amount < a
      · simp [refund_body, hp, he, hst, hE, hv] at h
        subst h
        decide
      · by_cases hbal : s1.balance < a
        · simp [refund_body, hp, he, hst, hE, hv, hbal] at h
          subst h
          decide
        · simp [refund_body, hp, he, hst, hE, hv, hbal] at h

/-- C10: `refund` performs no caller authorization — the model takes no
caller at all, mirroring the absence of any `require_auth` in the
source, and no execution returns `Unauthorized`; on every successful
Full or Partial refund the single transfer goes from custody to the
stored depositor. -/
theorem C10_refund_no_auth (now : Nat) (s : ContractState) (bid : Nat)
    (oamt : Option Int) (orec : Option Nat) (mode : RefundMode) :
    ((refund now s bid oamt orec mode).1 ≠ .err .Unauthorized) ∧
    ((mode = .Full ∨ mode = .Partial) → (refund now s bid oamt orec mode).1 = .ok () →
      ∃ e a, s.escrows bid = some e ∧ 0 < a ∧
        (refund now s bid oamt orec mode).2.2 = [⟨contractAddr, e.depositor, a⟩]) := by
  constructor
  · intro hu
    have hb : (refund_body now s bid oamt orec mode).1 = .err .Unauthorized := by
      have h2 : (hostRun (refund_body now s bid oamt orec mode) s).1 = .err .Unauthorized := hu
      rcases hB : (refund_body now s bid oamt orec mode) with ⟨r, s1, tr⟩
      rw [hB] at h2
      cases r <;> simp [hostRun] at h2 ⊢
      exact h2
    exact refund_body_err_set now s bid oamt orec mode .Unauthorized hb rfl
  · intro hmode h
    have hb : (refund_body now s bid oamt orec mode).1 = .ok () := (hostRun_ok _ _ _ h).1
    have htr : (refund now s bid oamt orec mode).2.2 =
        (refund_body now s bid oamt orec mode).2.2 := hostRun_ok_transfers _ _ _ h
    obtain ⟨-, e, he, -, a, recip, hpos, -, hfp, -, -, -, -, htr2⟩ :=
      refund_body_ok_spec now s bid oamt orec mode hb
    refine ⟨e, a, he, hpos, ?_⟩
    rw [htr, htr2, (hfp hmode).2]

/-- C10 witness: after the deadline, a Full refund of the concrete
Locked escrow succeeds and pays the stored depositor (address 5). -/
theorem C10_witness :
    (refund 60 lockedState 1 none none .Full).1 ≠ .err .Unauthorized ∧
    ∃ e a, lockedState.escrows 1 = some e ∧ 0 < a ∧
      (refund 60 lockedState 1 none none .Full).2.2 = [⟨contractAddr, e.depositor, a⟩] :=
  ⟨(C10_refund_no_auth 60 lockedState 1 none none .Full).1,
   (C10_refund_no_auth 60 lockedState 1 none none .Full).2 (Or.inl rfl) (by decide)⟩

end BountyEscrow
